import Mathlib

/-!
# ESP32 home lamp: network-lifecycle coordinator, status monitor, firmware update receiver

A shallow embedding of `main/wifi_app.c` and `main/http_server.c`.

* Globals of a translation unit become fields of a structure that is passed
  explicitly (`Coordinator`, `Monitor`).
* Every call that leaves the translation unit (WiFi driver, queues, NVS, LED,
  OTA sink) is recorded, in program order, in a list of `Effect`s / `OtaCall`s.
  A store to `g_retry_number` is recorded as well, because that global is shared
  between the driver's event callback and `wifi_app_task`.
* C enumerations are kept as their integer values, so that the `default:`
  branch of a `switch` is part of the model.
* `ESP_ERROR_CHECK(f())` aborts the firmware when `f` fails; the model follows
  the path on which the checked call succeeds.
-/

namespace HomeLamp

/-! ## Constants of `wifi_app.h` and `http_server.h` -/

/-- Value of `#define MAX_CONNECTIONS_RETRIES 5` (wifi_app.h). -/
def MAX_CONNECTIONS_RETRIES : Int := 5

/-- Enumerator `wifi_app_message_e` number 0. -/
def WIFI_APP_MSG_START_HTTP_SERVER : Nat := 0
/-- Enumerator `wifi_app_message_e` number 1. -/
def WIFI_APP_MSG_CONNECTING_FROM_HTTP_SERVER : Nat := 1
/-- Enumerator `wifi_app_message_e` number 2. -/
def WIFI_APP_MSG_STA_CONNECTED_GOT_IP : Nat := 2
/-- Enumerator `wifi_app_message_e` number 3. -/
def WIFI_APP_MSG_STA_LOAD_SAVED_CREDENTIALS : Nat := 3
/-- Enumerator `wifi_app_message_e` number 4. -/
def WIFI_APP_MSG_USER_REQUESTED_STA_DISCONNECT : Nat := 4
/-- Enumerator `wifi_app_message_e` number 5. -/
def WIFI_APP_MSG_STA_DISCONNECTED : Nat := 5

/-- Enumerator `http_server_message_e` number 0. -/
def HTTP_MSG_WIFI_CONNECT_INIT : Nat := 0
/-- Enumerator `http_server_message_e` number 1. -/
def HTTP_MSG_WIFI_CONNECT_SUCCESS : Nat := 1
/-- Enumerator `http_server_message_e` number 2. -/
def HTTP_MSG_WIFI_CONNECT_FAIL : Nat := 2
/-- Enumerator `http_server_message_e` number 3. -/
def HTTP_MSG_WIFI_USER_DISCONNECT : Nat := 3
/-- Enumerator `http_server_message_e` number 4. -/
def HTTP_MSG_OTA_UPDATE_SUCCESSFUL : Nat := 4
/-- Enumerator `http_server_message_e` number 5. -/
def HTTP_MSG_OTA_UPDATE_FAILED : Nat := 5

/-- Enumerator `http_server_wifi_connect_status_e` number 0. -/
def HTTP_WIFI_STATUS_NONE : Int := 0
/-- Enumerator `http_server_wifi_connect_status_e` number 1. -/
def HTTP_WIFI_STATUS_CONNECTING : Int := 1
/-- Enumerator `http_server_wifi_connect_status_e` number 2. -/
def HTTP_WIFI_STATUS_CONNECT_FAIL : Int := 2
/-- Enumerator `http_server_wifi_connect_status_e` number 3. -/
def HTTP_WIFI_STATUS_CONNECT_SUCCESS : Int := 3
/-- Enumerator `http_server_wifi_connect_status_e` number 4. -/
def HTTP_WIFI_STATUS_DISCONNECTED : Int := 4

/-- Value of `#define OTA_UPDATE_PENDING 0`. -/
def OTA_UPDATE_PENDING : Int := 0
/-- Value of `#define OTA_UPDATE_SUCCESS 1`. -/
def OTA_UPDATE_SUCCESS : Int := 1
/-- Value of `#define OTA_UPDATE_FAILED -1`. -/
def OTA_UPDATE_FAILED : Int := -1

/-! ## Constants of the ESP-IDF headers the sources include -/

/-- The enumerator `WIFI_REASON_CONNECTION_FAIL` of the driver's disconnect
reasons `wifi_err_reason_t` (esp_wifi_types.h); its value there is 205. -/
def WIFI_REASON_CONNECTION_FAIL : Nat := 205

/-- The success code `ESP_OK` of esp_err.h. -/
def ESP_OK : Int := 0
/-- The generic failure code `ESP_FAIL` of esp_err.h. -/
def ESP_FAIL : Int := -1
/-- The read outcome `HTTPD_SOCK_ERR_TIMEOUT` of esp_http_server.h. -/
def HTTPD_SOCK_ERR_TIMEOUT : Int := -3

/-- Enumeration `color_e` of colors.h. -/
inductive color_e
  | color_RED
  | color_BLUE
  | color_GREEN
  | color_WHITE
  | color_WARM_WHITE
  deriving DecidableEq, Repr

/-! ## wifi_app.c -/

/-- The three bits of `wifi_app_event_group` that wifi_app.c uses: BIT0, BIT1
and BIT2. The event group is only ever set, cleared and tested one bit at a
time, so each bit is a boolean field. -/
structure EventBits where
  /-- BIT0, `WIFI_APP_MSG_STA_LOAD_SAVED_CREDENTIALS_BIT` (fromSavedCredentials). -/
  LOAD_SAVED_CREDENTIALS_BIT : Bool
  /-- BIT1, `WIFI_APP_MSG_CONNECTING_FROM_HTTP_SERVER_BIT` (fromClientRequest). -/
  CONNECTING_FROM_HTTP_SERVER_BIT : Bool
  /-- BIT2, `WIFI_APP_MSG_USER_REQUESTED_STA_DISCONNECT_BIT` (userRequestedDisconnect). -/
  USER_REQUESTED_STA_DISCONNECT_BIT : Bool
  deriving DecidableEq, Repr

/-- The file-scope state of wifi_app.c that the handlers read and write. -/
structure Coordinator where
  /-- The `static int g_retry_number`. -/
  g_retry_number : Int
  /-- The bits of `wifi_app_event_group`. -/
  bits : EventBits
  deriving DecidableEq, Repr

/-- Calls leaving wifi_app.c, and stores to the shared retry counter. -/
inductive Effect
  /-- The call `esp_wifi_set_config(ESP_IF_WIFI_STA, wifi_app_get_wifi_config())`. -/
  | esp_wifi_set_config
  /-- The call `esp_wifi_connect()`. -/
  | esp_wifi_connect
  /-- The call `esp_wifi_disconnect()`. -/
  | esp_wifi_disconnect
  /-- The call `wifi_app_send_message(m)`: `m` is queued for `wifi_app_task`. -/
  | wifi_app_send_message (m : Nat)
  /-- The call `http_server_monitor_send_message(m)`: `m` is queued for the monitor. -/
  | http_server_monitor_send_message (m : Nat)
  /-- A store `g_retry_number = v` (also the store of `++g_retry_number`). -/
  | store_retry_number (v : Int)
  /-- The call `app_nvs_load_sta_creds()`. -/
  | app_nvs_load_sta_creds
  /-- The call `app_nvs_save_sta_creds()`. -/
  | app_nvs_save_sta_creds
  /-- The call `app_nvs_clear_sta_creds()`. -/
  | app_nvs_clear_sta_creds
  /-- The call `enable_light_color(led_strip, c)`. -/
  | enable_light_color (c : color_e)
  /-- The call `disable_light(led_strip)`. -/
  | disable_light
  /-- The call `http_server_start()`. -/
  | http_server_start
  deriving DecidableEq, Repr

/-- The driver events `wifi_wifi_app_event_group` is registered for
(`WIFI_EVENT` and `IP_EVENT`, any id). The station-disconnected event carries
the `reason` of its `wifi_event_sta_disconnected_t`. -/
inductive DriverEvent
  | WIFI_EVENT_AP_START
  | WIFI_EVENT_AP_STOP
  | WIFI_EVENT_AP_STACONNECTED
  | WIFI_EVENT_AP_STADISCONNECTED
  | WIFI_EVENT_STA_START
  | WIFI_EVENT_STA_CONNECTED
  | WIFI_EVENT_STA_DISCONNECTED (reason : Nat)
  /-- Any other id of base `WIFI_EVENT` (the `default:` of the first switch). -/
  | WIFI_EVENT_other (event_id : Int)
  | IP_EVENT_STA_GOT_IP
  /-- Any other id of base `IP_EVENT` (the `default:` of the second switch). -/
  | IP_EVENT_other (event_id : Int)
  deriving DecidableEq, Repr

/-- The event callback `wifi_wifi_app_event_group` (wifi_app.c:45-107): the new
value of `g_retry_number` and the calls made. Logging is omitted. -/
def wifi_wifi_app_event_group (ev : DriverEvent) (g_retry_number : Int) : Int × List Effect :=
  match ev with
  | .WIFI_EVENT_STA_DISCONNECTED _ =>
    if g_retry_number ≥ MAX_CONNECTIONS_RETRIES then
      (g_retry_number, [.wifi_app_send_message WIFI_APP_MSG_STA_DISCONNECTED])
    else
      (g_retry_number + 1, [.esp_wifi_connect, .store_retry_number (g_retry_number + 1)])
  | .IP_EVENT_STA_GOT_IP =>
    (g_retry_number, [.wifi_app_send_message WIFI_APP_MSG_STA_CONNECTED_GOT_IP])
  | _ => (g_retry_number, [])

/-- The helper `wifi_app_connect_sta` (wifi_app.c:197-201). -/
def wifi_app_connect_sta : List Effect :=
  [.esp_wifi_set_config, .esp_wifi_connect]

/-- One iteration of the loop of `wifi_app_task` (wifi_app.c:229-330) for the
received `messageID`. `nvs_load` is what `app_nvs_load_sta_creds()` returns if
it is called. Logging is omitted. -/
def wifi_app_task_step (nvs_load : Bool) (messageID : Nat) (s : Coordinator) :
    Coordinator × List Effect :=
  if messageID = WIFI_APP_MSG_STA_LOAD_SAVED_CREDENTIALS then
    if nvs_load then
      ({ s with bits := { s.bits with LOAD_SAVED_CREDENTIALS_BIT := true } },
        [.app_nvs_load_sta_creds] ++ wifi_app_connect_sta ++
          [.wifi_app_send_message WIFI_APP_MSG_START_HTTP_SERVER])
    else
      (s, [.app_nvs_load_sta_creds, .wifi_app_send_message WIFI_APP_MSG_START_HTTP_SERVER])
  else if messageID = WIFI_APP_MSG_START_HTTP_SERVER then
    (s, [.http_server_start, .enable_light_color .color_RED])
  else if messageID = WIFI_APP_MSG_CONNECTING_FROM_HTTP_SERVER then
    ({ g_retry_number := 0,
       bits := { s.bits with CONNECTING_FROM_HTTP_SERVER_BIT := true } },
      [.enable_light_color .color_BLUE] ++ wifi_app_connect_sta ++
        [.store_retry_number 0, .http_server_monitor_send_message HTTP_MSG_WIFI_CONNECT_INIT])
  else if messageID = WIFI_APP_MSG_STA_CONNECTED_GOT_IP then
    let eventBits := s.bits
    let bits1 :=
      if eventBits.LOAD_SAVED_CREDENTIALS_BIT then
        { eventBits with LOAD_SAVED_CREDENTIALS_BIT := false }
      else eventBits
    let bits2 :=
      if eventBits.CONNECTING_FROM_HTTP_SERVER_BIT then
        { bits1 with CONNECTING_FROM_HTTP_SERVER_BIT := false }
      else bits1
    ({ s with bits := bits2 },
      [.enable_light_color .color_WARM_WHITE,
       .http_server_monitor_send_message HTTP_MSG_WIFI_CONNECT_SUCCESS] ++
        (if eventBits.LOAD_SAVED_CREDENTIALS_BIT then [] else [.app_nvs_save_sta_creds]))
  else if messageID = WIFI_APP_MSG_STA_DISCONNECTED then
    if s.bits.LOAD_SAVED_CREDENTIALS_BIT then
      ({ s with bits := { s.bits with LOAD_SAVED_CREDENTIALS_BIT := false } },
        [.app_nvs_clear_sta_creds])
    else if s.bits.CONNECTING_FROM_HTTP_SERVER_BIT then
      ({ s with bits := { s.bits with CONNECTING_FROM_HTTP_SERVER_BIT := false } },
        [.http_server_monitor_send_message WIFI_REASON_CONNECTION_FAIL])
    else if s.bits.USER_REQUESTED_STA_DISCONNECT_BIT then
      ({ s with bits := { s.bits with USER_REQUESTED_STA_DISCONNECT_BIT := false } },
        [.http_server_monitor_send_message HTTP_MSG_WIFI_USER_DISCONNECT])
    else
      (s, [])
  else if messageID = WIFI_APP_MSG_USER_REQUESTED_STA_DISCONNECT then
    ({ g_retry_number := MAX_CONNECTIONS_RETRIES,
       bits := { s.bits with USER_REQUESTED_STA_DISCONNECT_BIT := true } },
      [.store_retry_number MAX_CONNECTIONS_RETRIES, .esp_wifi_disconnect])
  else
    (s, [.disable_light])

/-! ## http_server.c: the status monitor -/

/-- The two status variables of http_server.c that the monitor task writes. -/
structure Monitor where
  /-- The `static int g_wifi_connect_status`. -/
  g_wifi_connect_status : Int
  /-- The `static int g_fw_update_status`. -/
  g_fw_update_status : Int
  deriving DecidableEq, Repr

/-- Timer calls made by the monitor. -/
inductive MonitorEffect
  /-- The call `esp_timer_create(&fw_update_reset_args, &fw_update_reset)`. -/
  | esp_timer_create
  /-- The call `esp_timer_start_once(fw_update_reset, timeout)`. -/
  | esp_timer_start_once (timeout : Nat)
  deriving DecidableEq, Repr

/-- The function `http_server_fw_update_timer` (http_server.c:60-75); the local
`timer_seconds_ms` is a `uint32_t` initialised with `8 * 10000`. -/
def http_server_fw_update_timer (g_fw_update_status : Int) : List MonitorEffect :=
  if g_fw_update_status = OTA_UPDATE_SUCCESS then
    let timer_seconds_ms : Nat := 8 * 10000 % 2 ^ 32
    [.esp_timer_create, .esp_timer_start_once timer_seconds_ms]
  else
    []

/-- One iteration of the loop of `http_server_monitor` (http_server.c:87-127)
for the received `messageID`. -/
def http_server_monitor_step (messageID : Nat) (m : Monitor) : Monitor × List MonitorEffect :=
  if messageID = HTTP_MSG_WIFI_CONNECT_INIT then
    ({ m with g_wifi_connect_status := HTTP_WIFI_STATUS_CONNECTING }, [])
  else if messageID = HTTP_MSG_WIFI_CONNECT_SUCCESS then
    ({ m with g_wifi_connect_status := HTTP_WIFI_STATUS_CONNECT_SUCCESS }, [])
  else if messageID = HTTP_MSG_WIFI_USER_DISCONNECT then
    ({ m with g_wifi_connect_status := HTTP_WIFI_STATUS_DISCONNECTED }, [])
  else if messageID = HTTP_MSG_WIFI_CONNECT_FAIL then
    ({ m with g_wifi_connect_status := HTTP_WIFI_STATUS_CONNECT_FAIL }, [])
  else if messageID = HTTP_MSG_OTA_UPDATE_SUCCESSFUL then
    ({ m with g_fw_update_status := OTA_UPDATE_SUCCESS },
      http_server_fw_update_timer OTA_UPDATE_SUCCESS)
  else if messageID = HTTP_MSG_OTA_UPDATE_FAILED then
    ({ m with g_fw_update_status := OTA_UPDATE_FAILED }, [])
  else
    (m, [])

/-! ## The tasks and their queues -/

/-- The coordinator, the monitor, their two FreeRTOS queues and the log of the
calls made so far. A queue is the list of message ids waiting in it, oldest
first. A sender that would block on a full queue is a sender whose message has
not been appended yet, so the capacity does not appear. -/
structure System where
  /-- State of wifi_app.c. -/
  coord : Coordinator
  /-- Contents of `wifi_app_queue_handle`. -/
  wifi_app_queue : List Nat
  /-- State of the monitor in http_server.c. -/
  monitor : Monitor
  /-- Contents of `http_server_monitor_queue_handle`. -/
  http_server_monitor_queue : List Nat
  /-- Whether `http_server_handle` is non-NULL (the HTTP server runs). -/
  http_server_started : Bool
  /-- Every call made by the coordinator and the event callback, oldest first. -/
  log : List Effect
  /-- Every timer call made by the monitor, oldest first. -/
  timer_log : List MonitorEffect
  deriving DecidableEq, Repr

/-- What one call does to the queues and to the HTTP server handle. -/
def System.apply_effect (sys : System) : Effect → System
  | .wifi_app_send_message m => { sys with wifi_app_queue := sys.wifi_app_queue ++ [m] }
  | .http_server_monitor_send_message m =>
    { sys with http_server_monitor_queue := sys.http_server_monitor_queue ++ [m] }
  | .http_server_start => { sys with http_server_started := true }
  | _ => sys

/-- The calls of one handler run, applied in order and appended to the log. -/
def System.deliver (effs : List Effect) (sys : System) : System :=
  let sys1 := effs.foldl System.apply_effect sys
  { sys1 with log := sys1.log ++ effs }

/-- What can happen next in the running firmware. -/
inductive Input
  /-- The default event loop invokes `wifi_wifi_app_event_group` for `ev`. -/
  | driver_event (ev : DriverEvent)
  /-- A client POSTs `/wifiConnect.json` (`http_server_wifi_connect_json_handler`). -/
  | wifi_connect_json
  /-- A client sends DELETE `/wifiDisconnect.json`
  (`http_server_wifi_disconnect_json_handler`). -/
  | wifi_disconnect_json
  /-- The task `wifi_app_task` receives the oldest message of its queue;
  `nvs_load` is the result of `app_nvs_load_sta_creds()` should it be called. -/
  | wifi_app_task (nvs_load : Bool)
  /-- The task `http_server_monitor` receives the oldest message of its queue. -/
  | http_server_monitor
  deriving DecidableEq, Repr

/-- One atomic step of the system. A task whose queue is empty stays blocked in
`xQueueReceive`; an HTTP handler runs only once the server has been started.
A driver event is the whole callback run taken as one step; `Interleaved.step`
takes the callback statement by statement, with the other tasks in between. -/
def System.step (sys : System) : Input → System
  | .driver_event ev =>
    let r := wifi_wifi_app_event_group ev sys.coord.g_retry_number
    System.deliver r.2 { sys with coord := { sys.coord with g_retry_number := r.1 } }
  | .wifi_connect_json =>
    if sys.http_server_started then
      System.deliver [.wifi_app_send_message WIFI_APP_MSG_CONNECTING_FROM_HTTP_SERVER] sys
    else sys
  | .wifi_disconnect_json =>
    if sys.http_server_started then
      System.deliver [.wifi_app_send_message WIFI_APP_MSG_USER_REQUESTED_STA_DISCONNECT] sys
    else sys
  | .wifi_app_task nvs_load =>
    match sys.wifi_app_queue with
    | [] => sys
    | messageID :: rest =>
      let r := wifi_app_task_step nvs_load messageID sys.coord
      System.deliver r.2 { sys with coord := r.1, wifi_app_queue := rest }
  | .http_server_monitor =>
    match sys.http_server_monitor_queue with
    | [] => sys
    | messageID :: rest =>
      let r := http_server_monitor_step messageID sys.monitor
      { sys with monitor := r.1, http_server_monitor_queue := rest,
                 timer_log := sys.timer_log ++ r.2 }

/-- The steps for a list of inputs, in order. -/
def System.run (sys : System) (inputs : List Input) : System :=
  inputs.foldl System.step sys

/-- The state when `wifi_app_task` enters its loop: statics are zero
(`g_retry_number`, the event group, `HTTP_WIFI_STATUS_NONE`,
`OTA_UPDATE_PENDING`) and the task has just sent itself
`WIFI_APP_MSG_STA_LOAD_SAVED_CREDENTIALS` (wifi_app.c:225). -/
def startup : System :=
  { coord := { g_retry_number := 0, bits := ⟨false, false, false⟩ }
    wifi_app_queue := [WIFI_APP_MSG_STA_LOAD_SAVED_CREDENTIALS]
    monitor := { g_wifi_connect_status := HTTP_WIFI_STATUS_NONE
                 g_fw_update_status := OTA_UPDATE_PENDING }
    http_server_monitor_queue := []
    http_server_started := false
    log := []
    timer_log := [] }

/-! ## http_server.c: the firmware update receiver -/

/-- A value of C type `char`, kept as a natural number. -/
abbrev Byte := Nat

/-- Size of the local array `ota_buff` (`buffer_size = 1024`). -/
def buffer_size : Nat := 1024

/-- The string literal "\r\n\r\n" searched for with `strstr`. -/
def CRLFCRLF : List Byte := [13, 10, 13, 10]

/-- What one call of `httpd_req_recv` does: it stores `bytes` at the start of
the buffer and returns their number, or it stores nothing and returns the
negative code `-(k + 1)` (`k = 2` is `HTTPD_SOCK_ERR_TIMEOUT`). -/
inductive RecvResult
  | data (bytes : List Byte)
  | error (k : Nat)
  deriving DecidableEq, Repr

/-- The read that times out: `httpd_req_recv` returns `HTTPD_SOCK_ERR_TIMEOUT`. -/
def RecvResult.timeout : RecvResult := .error 2

/-- The value `httpd_req_recv` returns, assigned to `receive_len`. -/
def RecvResult.receive_len : RecvResult → Int
  | .data bytes => (bytes.length : Int)
  | .error k => -((k : Int) + 1)

/-- The buffer after `httpd_req_recv` has stored what it received. -/
def RecvResult.store (ota_buff : List Byte) : RecvResult → List Byte
  | .data bytes => bytes ++ ota_buff.drop bytes.length
  | .error _ => ota_buff

/-- Result of the C library function `strstr` on an array that need not hold a
terminating NUL. -/
inductive StrStr
  /-- The first occurrence starts at this offset. -/
  | found (offset : Nat)
  /-- The C string ends (a NUL is met) before any occurrence: `NULL`. -/
  | null
  /-- Neither an occurrence nor a NUL inside the array: the scan leaves it. -/
  | overrun
  deriving DecidableEq, Repr

/-- Whether the bytes of `needle` stand at the start of `l`. -/
def starts_with : List Byte → List Byte → Bool
  | [], _ => true
  | _ :: _, [] => false
  | a :: needle, b :: l => if a = b then starts_with needle l else false

/-- The scan of `strstr(p, needle)` for a non-empty NUL-free `needle`, where
`p` points `offset` bytes into the array and `rest` is the array from `p` on. -/
def strstr_from (needle : List Byte) : List Byte → Nat → StrStr
  | [], _ => .overrun
  | b :: rest, offset =>
    if starts_with needle (b :: rest) then .found offset
    else if b = 0 then .null
    else strstr_from needle rest (offset + 1)

/-- The call `strstr(ota_buff, needle)`. -/
def strstr (ota_buff : List Byte) (needle : List Byte) : StrStr :=
  strstr_from needle ota_buff 0

/-- Return values of the Firmware Update Sink (esp_ota_ops.h) for one request:
the handler only ever looks at whether a value equals `ESP_OK`. -/
structure OtaSink where
  /-- What `esp_ota_begin` returns. -/
  esp_ota_begin : Int
  /-- What the `n`-th call of `esp_ota_write` returns (counted from 0). -/
  esp_ota_write : Nat → Int
  /-- What `esp_ota_end` returns. -/
  esp_ota_end : Int
  /-- What `esp_ota_set_boot_partition` returns. -/
  esp_ota_set_boot_partition : Int

/-- Calls made by `http_server_OTA_update_handler`, with the values they return. -/
inductive OtaCall
  /-- The call `httpd_req_recv(req, ota_buff, len)` returning `receive_len`. -/
  | httpd_req_recv (len : Nat) (receive_len : Int)
  /-- The call `esp_ota_begin(update_partition, OTA_SIZE_UNKNOWN, &ota_handle)`. -/
  | esp_ota_begin (ret : Int)
  /-- The call `esp_ota_write(ota_handle, p, size)`: `data` are the `size` bytes at `p`. -/
  | esp_ota_write (data : List Byte) (ret : Int)
  /-- The call `esp_ota_end(ota_handle)`; `handle_set` tells whether `ota_handle`
  has been assigned by a successful `esp_ota_begin`. -/
  | esp_ota_end (handle_set : Bool) (ret : Int)
  /-- The call `esp_ota_set_boot_partition(update_partition)`. -/
  | esp_ota_set_boot_partition (ret : Int)
  /-- The call `http_server_monitor_send_message(m)`. -/
  | http_server_monitor_send_message (m : Nat)
  deriving DecidableEq, Repr

/-- How an invocation of the handler ends. -/
inductive OtaOutcome
  /-- The handler returns this `esp_err_t`. -/
  | returned (ret : Int)
  /-- The handler leaves defined behaviour: `strstr` returned `NULL` or left the
  array, or the first `esp_ota_write` was given a range outside `ota_buff`. -/
  | undefined
  deriving DecidableEq, Repr

/-- An invocation: how it ended and the calls it made, oldest first. -/
structure OtaRun where
  /-- How the invocation ended. -/
  outcome : OtaOutcome
  /-- The calls made, oldest first. -/
  calls : List OtaCall
  deriving DecidableEq, Repr

/-- The locals of the handler that live across iterations of its loop. -/
structure OtaState where
  /-- The array `ota_buff`. -/
  ota_buff : List Byte
  /-- The `uint32_t content_received`. -/
  content_received : Nat
  /-- The flag `is_request_body_started`; `ota_handle` is assigned exactly when it is set. -/
  is_request_body_started : Bool
  /-- Number of `esp_ota_write` calls made so far. -/
  writes : Nat
  /-- The calls made so far, oldest first. -/
  calls : List OtaCall
  deriving DecidableEq, Repr

/-- Where control goes after one pass through the body of the `do ... while`. -/
inductive OtaLoopStep
  /-- The condition of the `while` holds: the body runs again. -/
  | again (st : OtaState)
  /-- The condition of the `while` fails: control reaches `esp_ota_end`. -/
  | leave (st : OtaState)
  /-- The handler has returned or left defined behaviour. -/
  | done (run : OtaRun)

/-- The condition `receive_len > 0 && content_received < content_length`. -/
def ota_loop_condition (content_length : Nat) (receive_len : Int) (st : OtaState) :
    OtaLoopStep :=
  if receive_len > 0 ∧ st.content_received < content_length then .again st else .leave st

/-- One pass through the body of the `do ... while` of
`http_server_OTA_update_handler` (http_server.c:243-293), `r` being what this
pass's `httpd_req_recv` does. A `continue` inside a `do ... while` jumps to
the test of the loop condition. -/
def ota_loop_body (sink : OtaSink) (content_length : Nat) (r : RecvResult) (st : OtaState) :
    OtaLoopStep :=
  let receive_len := r.receive_len
  let st1 : OtaState :=
    { st with
      ota_buff := r.store st.ota_buff
      calls := st.calls ++ [.httpd_req_recv (min content_length buffer_size) receive_len] }
  if receive_len < 0 then
    if receive_len = HTTPD_SOCK_ERR_TIMEOUT then
      ota_loop_condition content_length receive_len st1
    else
      .done ⟨.returned ESP_FAIL, st1.calls⟩
  else if ¬ st1.is_request_body_started then
    match strstr st1.ota_buff CRLFCRLF with
    | .found offset =>
      let body_start : Nat := offset + 4
      let body_part_len : Nat := ((receive_len - (body_start : Int)) % 2 ^ 32).toNat
      let err := sink.esp_ota_begin
      let st2 : OtaState :=
        { st1 with is_request_body_started := true, calls := st1.calls ++ [.esp_ota_begin err] }
      if err ≠ ESP_OK then
        .done ⟨.returned ESP_FAIL, st2.calls⟩
      else if body_start + body_part_len ≤ buffer_size then
        let data := (st2.ota_buff.drop body_start).take body_part_len
        ota_loop_condition content_length receive_len
          { st2 with
            content_received := (st2.content_received + body_part_len) % 2 ^ 32
            writes := st2.writes + 1
            calls := st2.calls ++ [.esp_ota_write data (sink.esp_ota_write st2.writes)] }
      else
        .done ⟨.undefined, st2.calls⟩
    | .null => .done ⟨.undefined, st1.calls⟩
    | .overrun => .done ⟨.undefined, st1.calls⟩
  else
    let data := st1.ota_buff.take receive_len.toNat
    ota_loop_condition content_length receive_len
      { st1 with
        content_received := (st1.content_received + receive_len.toNat) % 2 ^ 32
        writes := st1.writes + 1
        calls := st1.calls ++ [.esp_ota_write data (sink.esp_ota_write st1.writes)] }

/-- The handler from `esp_ota_end` to its last `return` (http_server.c:295-313). -/
def ota_after_loop (sink : OtaSink) (st : OtaState) : OtaRun :=
  let calls1 := st.calls ++ [.esp_ota_end st.is_request_body_started sink.esp_ota_end]
  if sink.esp_ota_end ≠ ESP_OK then
    ⟨.returned ESP_OK, calls1 ++ [.http_server_monitor_send_message HTTP_MSG_OTA_UPDATE_FAILED]⟩
  else
    let calls2 := calls1 ++ [.esp_ota_set_boot_partition sink.esp_ota_set_boot_partition]
    if sink.esp_ota_set_boot_partition ≠ ESP_OK then
      ⟨.returned ESP_OK, calls2 ++ [.http_server_monitor_send_message HTTP_MSG_OTA_UPDATE_FAILED]⟩
    else
      ⟨.returned ESP_OK,
        calls2 ++ [.http_server_monitor_send_message HTTP_MSG_OTA_UPDATE_SUCCESSFUL]⟩

/-- The `do ... while` loop followed by the rest of the handler. `script` lists
what the successive calls of `httpd_req_recv` do; once it is used up the body
of the request has been consumed and `httpd_req_recv` returns 0. -/
def ota_receive_loop (sink : OtaSink) (content_length : Nat) :
    List RecvResult → OtaState → OtaRun
  | [], st =>
    match ota_loop_body sink content_length (.data []) st with
    | .again st1 => ota_after_loop sink st1
    | .leave st1 => ota_after_loop sink st1
    | .done run => run
  | r :: script, st =>
    match ota_loop_body sink content_length r st with
    | .again st1 => ota_receive_loop sink content_length script st1
    | .leave st1 => ota_after_loop sink st1
    | .done run => run

/-- What an invocation of the handler is given: the request (`content_len` and
what its reads will do), whether `esp_ota_get_next_update_partition` finds a
partition, the bytes that happen to be in `ota_buff` on entry (the array is not
initialised), and the return values of the sink. -/
structure OtaRequest where
  /-- The field `req->content_len`. -/
  content_len : Nat
  /-- What the successive calls of `httpd_req_recv` do. -/
  script : List RecvResult
  /-- Whether `update_partition` is non-NULL. -/
  update_partition : Bool
  /-- The contents of `ota_buff` on entry. -/
  stack : List Byte
  /-- The sink. -/
  sink : OtaSink

/-- The function `http_server_OTA_update_handler` (http_server.c:225-314). -/
def http_server_OTA_update_handler (req : OtaRequest) : OtaRun :=
  if ¬ req.update_partition then
    ⟨.returned ESP_FAIL, []⟩
  else
    ota_receive_loop req.sink req.content_len req.script
      { ota_buff := req.stack
        content_received := 0
        is_request_body_started := false
        writes := 0
        calls := [] }

/-- The data of the `esp_ota_write` calls of a run, concatenated in call order:
the bytes handed to the storage sink. -/
def sink_bytes : List OtaCall → List Byte
  | [] => []
  | .esp_ota_write data _ :: calls => data ++ sink_bytes calls
  | _ :: calls => sink_bytes calls

/-- The messages sent to the monitor during a run, oldest first. -/
def monitor_reports : List OtaCall → List Nat
  | [] => []
  | .http_server_monitor_send_message m :: calls => m :: monitor_reports calls
  | _ :: calls => monitor_reports calls

/-! ## Vocabulary of the statements -/

/-- Number of session flags that are set. -/
def EventBits.count (b : EventBits) : Nat :=
  b.LOAD_SAVED_CREDENTIALS_BIT.toNat + b.CONNECTING_FROM_HTTP_SERVER_BIT.toNat +
    b.USER_REQUESTED_STA_DISCONNECT_BIT.toNat

/-- The input "the driver reports a station disconnect with this reason". -/
def sta_disconnected (reason : Nat) : Input :=
  .driver_event (.WIFI_EVENT_STA_DISCONNECTED reason)

/-- A sink all of whose operations succeed. -/
def sink_ok : OtaSink :=
  { esp_ota_begin := ESP_OK, esp_ota_write := fun _ => ESP_OK, esp_ota_end := ESP_OK,
    esp_ota_set_boot_partition := ESP_OK }

/-- A request with `content_len = 9` (a one-byte header line `h`, the blank
line, and the payload `A B C D`), an update partition, and an `ota_buff` that
holds zeros on entry. -/
def sample_request (script : List RecvResult) (sink : OtaSink) : OtaRequest :=
  { content_len := 9, script := script, update_partition := true,
    stack := List.replicate 1024 0, sink := sink }

/-- Offset of the first occurrence of `needle` in `stream`, if there is one. -/
def find_first (needle : List Byte) : List Byte → Option Nat
  | [] => none
  | b :: rest =>
    if starts_with needle (b :: rest) then some 0
    else (find_first needle rest).map (· + 1)

/-- The payload of a request body in the words of the spec: the bytes that
follow the first header terminator "\r\n\r\n" of the stream. -/
def spec_payload (stream : List Byte) : Option (List Byte) :=
  (find_first CRLFCRLF stream).map (fun i => stream.drop (i + 4))

/-- Number of `httpd_req_recv` calls that returned a negative code other than
`HTTPD_SOCK_ERR_TIMEOUT` (a permanent read error). -/
def permanent_read_errors : List OtaCall → Nat
  | [] => 0
  | .httpd_req_recv _ receive_len :: calls =>
    (if receive_len < 0 ∧ receive_len ≠ HTTPD_SOCK_ERR_TIMEOUT then 1 else 0) +
      permanent_read_errors calls
  | _ :: calls => permanent_read_errors calls

/-- Number of `esp_ota_set_boot_partition` calls. -/
def set_boot_calls : List OtaCall → Nat
  | [] => 0
  | .esp_ota_set_boot_partition _ :: calls => 1 + set_boot_calls calls
  | _ :: calls => set_boot_calls calls

/-- Number of `esp_ota_end` calls. -/
def esp_ota_end_calls : List OtaCall → Nat
  | [] => 0
  | .esp_ota_end _ _ :: calls => 1 + esp_ota_end_calls calls
  | _ :: calls => esp_ota_end_calls calls

/-- The calls `extra` hold no report, no boot-target call and no finalize call. -/
def quiet (extra : List OtaCall) : Prop :=
  monitor_reports extra = [] ∧ set_boot_calls extra = 0 ∧ esp_ota_end_calls extra = 0

/-- The three ways an invocation can end, told by what it adds to the calls
`pre` made before the point considered: through `esp_ota_end` with one report,
by `return ESP_FAIL` without any, or by leaving defined behaviour. -/
def run_shape (pre : List OtaCall) (run : OtaRun) : Prop :=
  ∃ extra, run.calls = pre ++ extra ∧
    ((run.outcome = .returned ESP_OK ∧ permanent_read_errors extra = 0 ∧
        esp_ota_end_calls extra = 1 ∧
        (monitor_reports extra = [HTTP_MSG_OTA_UPDATE_SUCCESSFUL] ∨
          monitor_reports extra = [HTTP_MSG_OTA_UPDATE_FAILED])) ∨
      (run.outcome = .returned ESP_FAIL ∧ quiet extra) ∨
      (run.outcome = .undefined ∧ quiet extra ∧ permanent_read_errors extra = 0))

/-- What one pass through the loop body adds to the calls `pre`. -/
def step_shape (pre : List OtaCall) : OtaLoopStep → Prop
  | .again st => ∃ extra, st.calls = pre ++ extra ∧ quiet extra ∧ permanent_read_errors extra = 0
  | .leave st => ∃ extra, st.calls = pre ++ extra ∧ quiet extra ∧ permanent_read_errors extra = 0
  | .done run => ∃ extra, run.calls = pre ++ extra ∧ quiet extra ∧
      (run.outcome = .returned ESP_FAIL ∨
        (run.outcome = .undefined ∧ permanent_read_errors extra = 0))

/-- The call with the value returned by `esp_ota_write` blanked out. -/
def OtaCall.forget_write_ret : OtaCall → OtaCall
  | .esp_ota_write data _ => .esp_ota_write data ESP_OK
  | c => c

/-- A run with the values returned by `esp_ota_write` blanked out. -/
def OtaRun.forget_write_ret (run : OtaRun) : OtaRun :=
  { run with calls := run.calls.map OtaCall.forget_write_ret }

/-- A loop state with the values returned by `esp_ota_write` blanked out. -/
def OtaState.forget_write_ret (st : OtaState) : OtaState :=
  { st with calls := st.calls.map OtaCall.forget_write_ret }

/-- A loop step with the values returned by `esp_ota_write` blanked out. -/
def OtaLoopStep.forget_write_ret : OtaLoopStep → OtaLoopStep
  | .again st => .again st.forget_write_ret
  | .leave st => .leave st.forget_write_ret
  | .done run => .done run.forget_write_ret

/-! ## The NVS library (ESP-IDF `nvs.h`) -/

/-- The error code `ESP_ERR_NVS_NOT_FOUND` of nvs.h (`ESP_ERR_NVS_BASE + 0x02`). -/
def ESP_ERR_NVS_NOT_FOUND : Int := 0x1102
/-- The error code `ESP_ERR_NVS_READ_ONLY` of nvs.h (`ESP_ERR_NVS_BASE + 0x04`). -/
def ESP_ERR_NVS_READ_ONLY : Int := 0x1104
/-- The error code `ESP_ERR_NVS_INVALID_LENGTH` of nvs.h (`ESP_ERR_NVS_BASE + 0x0c`). -/
def ESP_ERR_NVS_INVALID_LENGTH : Int := 0x110c

/-- Value of `#define MAX_SSID_LENGTH 32` (wifi_app.h). -/
def MAX_SSID_LENGTH : Nat := 32
/-- Value of `#define MAX_PASSWORD_LENGTH 64` (wifi_app.h). -/
def MAX_PASSWORD_LENGTH : Nat := 64

/-- The enumeration `nvs_open_mode_t` of nvs.h. -/
inductive nvs_open_mode
  | NVS_READONLY
  | NVS_READWRITE
  deriving DecidableEq, Repr

/-- The default NVS partition: its namespaces, each with the blobs stored
under its keys. -/
abbrev NvsStore := List (String × List (String × List Byte))

/-- An open handle: the namespace it refers to and the mode it was opened in. -/
structure nvs_handle where
  /-- Name of the namespace. -/
  name : String
  /-- Whether the handle was opened with `NVS_READONLY`. -/
  read_only : Bool
  deriving DecidableEq, Repr

/-- The entries of a namespace with the blob of `key` set to `value`. -/
def nvs_entries_set (key : String) (value : List Byte) :
    List (String × List Byte) → List (String × List Byte)
  | [] => [(key, value)]
  | (k, v) :: entries =>
    if k = key then (key, value) :: entries else (k, v) :: nvs_entries_set key value entries

/-- The store with the entries of the namespace `name` replaced by `f` of them. -/
def nvs_namespace_update (name : String)
    (f : List (String × List Byte) → List (String × List Byte)) : NvsStore → NvsStore
  | [] => []
  | (n, entries) :: store =>
    if n = name then (n, f entries) :: store
    else (n, entries) :: nvs_namespace_update name f store

/-- The function `nvs_open` as nvs.h documents it: with `NVS_READONLY` a
namespace that does not exist yet gives `ESP_ERR_NVS_NOT_FOUND`; with
`NVS_READWRITE` it is created. -/
def nvs_open (name : String) (open_mode : nvs_open_mode) (store : NvsStore) :
    Int × NvsStore × nvs_handle :=
  match store.lookup name, open_mode with
  | some _, .NVS_READONLY => (ESP_OK, store, ⟨name, true⟩)
  | some _, .NVS_READWRITE => (ESP_OK, store, ⟨name, false⟩)
  | none, .NVS_READONLY => (ESP_ERR_NVS_NOT_FOUND, store, ⟨name, true⟩)
  | none, .NVS_READWRITE => (ESP_OK, store ++ [(name, [])], ⟨name, false⟩)

/-- The function `nvs_set_blob` as nvs.h documents it: `ESP_ERR_NVS_READ_ONLY`
on a handle opened read-only, else the blob is stored under `key`. -/
def nvs_set_blob (handle : nvs_handle) (key : String) (value : List Byte) (store : NvsStore) :
    Int × NvsStore :=
  if handle.read_only then (ESP_ERR_NVS_READ_ONLY, store)
  else (ESP_OK, nvs_namespace_update handle.name (nvs_entries_set key value) store)

/-- The function `nvs_get_blob` with a non-NULL `out_value` as nvs.h documents
it: `ESP_ERR_NVS_NOT_FOUND` if the key does not exist,
`ESP_ERR_NVS_INVALID_LENGTH` if `length` is too small for the blob, else the
blob is copied to the start of `out_value`. The result is the error code and
the array `out_value` afterwards. -/
def nvs_get_blob (handle : nvs_handle) (key : String) (out_value : List Byte) (length : Nat)
    (store : NvsStore) : Int × List Byte :=
  match (store.lookup handle.name).bind (fun entries => entries.lookup key) with
  | none => (ESP_ERR_NVS_NOT_FOUND, out_value)
  | some blob =>
    if length < blob.length then (ESP_ERR_NVS_INVALID_LENGTH, out_value)
    else (ESP_OK, blob ++ out_value.drop blob.length)

/-- The function `nvs_erase_all` as nvs.h documents it: `ESP_ERR_NVS_READ_ONLY`
on a handle opened read-only, else every key of the namespace is erased. -/
def nvs_erase_all (handle : nvs_handle) (store : NvsStore) : Int × NvsStore :=
  if handle.read_only then (ESP_ERR_NVS_READ_ONLY, store)
  else (ESP_OK, nvs_namespace_update handle.name (fun _ => []) store)

/-- The function `nvs_commit`: changes are already in `store`, nothing is left to write. -/
def nvs_commit (_handle : nvs_handle) : Int := ESP_OK

/-! ## app_nvs.c -/

/-- The string `app_nvs_sta_credentials_namespace`. -/
def app_nvs_sta_credentials_namespace : String := "sta_creds"
/-- The key under which the SSID is stored. -/
def nvs_key_ssid : String := "ssid"
/-- The key under which the password is stored. -/
def nvs_key_password : String := "password"

/-- The part of `wifi_config_t` the sources use: the arrays `sta.ssid` (32
bytes) and `sta.password` (64 bytes). -/
structure wifi_config_t where
  /-- The array `sta.ssid`. -/
  ssid : List Byte
  /-- The array `sta.password`. -/
  password : List Byte
  deriving DecidableEq, Repr

/-- The configuration after `memset(wifi_config, 0x00, sizeof(wifi_config_t))`. -/
def wifi_config_zero : wifi_config_t :=
  { ssid := List.replicate MAX_SSID_LENGTH 0, password := List.replicate MAX_PASSWORD_LENGTH 0 }

/-- The function `app_nvs_save_sta_creds` (app_nvs.c:16-60): the value returned
and the store afterwards. `wifi_sta_config` is what `wifi_app_get_wifi_config()`
returns, `none` for NULL. -/
def app_nvs_save_sta_creds (wifi_sta_config : Option wifi_config_t) (store : NvsStore) :
    Int × NvsStore :=
  match wifi_sta_config with
  | none => (ESP_OK, store)
  | some config =>
    let (esp_err, store1, handle) :=
      nvs_open app_nvs_sta_credentials_namespace .NVS_READWRITE store
    if esp_err ≠ ESP_OK then (esp_err, store1)
    else
      let (esp_err, store2) :=
        nvs_set_blob handle nvs_key_ssid (config.ssid.take MAX_SSID_LENGTH) store1
      if esp_err ≠ ESP_OK then (esp_err, store2)
      else
        let (esp_err, store3) :=
          nvs_set_blob handle nvs_key_password (config.password.take MAX_PASSWORD_LENGTH) store2
        if esp_err ≠ ESP_OK then (esp_err, store3)
        else
          let esp_err := nvs_commit handle
          if esp_err ≠ ESP_OK then (esp_err, store3)
          else (ESP_OK, store3)

/-- The function `app_nvs_load_sta_creds` (app_nvs.c:62-101): the value returned
and what `wifi_app_get_wifi_config()` points to afterwards (`none` for NULL; the
configuration allocated locally in that case is not kept anywhere). -/
def app_nvs_load_sta_creds (wifi_config : Option wifi_config_t) (store : NvsStore) :
    Bool × Option wifi_config_t :=
  let (esp_err, _, handle) := nvs_open app_nvs_sta_credentials_namespace .NVS_READONLY store
  if esp_err ≠ ESP_OK then (false, wifi_config)
  else
    let config0 := wifi_config_zero
    let (esp_err, ssid) := nvs_get_blob handle nvs_key_ssid config0.ssid MAX_SSID_LENGTH store
    let config1 := { config0 with ssid := ssid }
    if esp_err ≠ ESP_OK then (false, wifi_config.map fun _ => config1)
    else
      let (esp_err, password) :=
        nvs_get_blob handle nvs_key_password config1.password MAX_PASSWORD_LENGTH store
      let config2 := { config1 with password := password }
      if esp_err ≠ ESP_OK then (false, wifi_config.map fun _ => config2)
      else (decide (config2.ssid.headD 0 ≠ 0), wifi_config.map fun _ => config2)

/-- The function `app_nvs_clear_sta_creds` (app_nvs.c:103-134): the value
returned and the store afterwards. -/
def app_nvs_clear_sta_creds (store : NvsStore) : Int × NvsStore :=
  let (esp_err, store1, handle) :=
    nvs_open app_nvs_sta_credentials_namespace .NVS_READONLY store
  if esp_err ≠ ESP_OK then (esp_err, store1)
  else
    let (esp_err, store2) := nvs_erase_all handle store1
    if esp_err ≠ ESP_OK then (esp_err, store2)
    else
      let esp_err := nvs_commit handle
      if esp_err ≠ ESP_OK then (esp_err, store2)
      else (ESP_OK, store2)

/-! ## colors.c and the status light -/

/-- The function `color_to_rgb_struct` (colors.c): red, green and blue. -/
def color_to_rgb_struct : color_e → Nat × Nat × Nat
  | .color_RED => (255, 0, 0)
  | .color_GREEN => (0, 255, 0)
  | .color_BLUE => (0, 0, 255)
  | .color_WARM_WHITE => (253, 227, 108)
  | .color_WHITE => (255, 255, 255)

/-- What the strip shows after the calls in `log`, starting from `light`: the
colour of the last `enable_light_color`, or nothing (`none`) after
`disable_light` (ws2812_api.c). -/
def status_light (light : Option color_e) : List Effect → Option color_e
  | [] => light
  | .enable_light_color c :: log => status_light (some c) log
  | .disable_light :: log => status_light none log
  | _ :: log => status_light light log

/-! ## The device: tasks, credential buffer and credential store -/

/-- The submitted SSID and password as the two arrays of `*wifi_config` hold
them: each followed by NUL bytes up to the size of its array (32 and 64). -/
def sta_credentials (ssid password : List Byte) : wifi_config_t :=
  { ssid := ssid ++ List.replicate (MAX_SSID_LENGTH - ssid.length) 0
    password := password ++ List.replicate (MAX_PASSWORD_LENGTH - password.length) 0 }

/-- The C library function `strlen` on an array that ends with a NUL: the
number of bytes before the first NUL. -/
def strlen (str : List Byte) : Nat :=
  (str.takeWhile (fun b => decide (b ≠ 0))).length

/-- The C library call `memcpy(mem + offset, src, n)`, `src` being the `n`
bytes copied and `mem` the bytes of the object written to. Bytes that would
land past the end of `mem` are dropped: they fall into members the model does
not hold. -/
def memcpy_at (offset : Nat) (src : List Byte) (mem : List Byte) : List Byte :=
  (mem.take offset ++ src ++ mem.drop (offset + src.length)).take mem.length

/-- The helper `get_value_from_header` (http_server.c:343-356). `value` is the
value the request gives the header field, the empty string when the request
lacks the field (`httpd_req_get_hdr_value_len` returns 0 in both cases). The
result is the allocated array of `len` bytes, the value followed by a NUL, or
`none` for NULL. `malloc` is taken to succeed. -/
def get_value_from_header (value : List Byte) : Option (List Byte) :=
  let len := value.length + 1
  if len > 1 then some (value ++ [0]) else none

/-- The handler `http_server_wifi_connect_json_handler` (http_server.c:364-382)
up to its call of `wifi_app_send_message`, for the values of the headers
`my-connect-ssid` and `my-connect-pwd`: the buffer `*wifi_config` it leaves.
The arrays `sta.ssid` and `sta.password` are the first 96 bytes of the buffer,
in this order (esp_wifi_types.h). The result is `none` when the handler calls
`strlen(NULL)`: its behaviour is undefined and it queues nothing. -/
def http_server_wifi_connect_json_handler (my_connect_ssid my_connect_pwd : List Byte) :
    Option wifi_config_t :=
  let ssid_str := get_value_from_header my_connect_ssid
  let pwd_str := get_value_from_header my_connect_pwd
  let mem0 := List.replicate (MAX_SSID_LENGTH + MAX_PASSWORD_LENGTH) 0
  match ssid_str with
  | none => none
  | some ssid_str =>
    let mem1 := memcpy_at 0 (ssid_str.take (strlen ssid_str + 1)) mem0
    match pwd_str with
    | none => none
    | some pwd_str =>
      let mem2 := memcpy_at MAX_SSID_LENGTH (pwd_str.take (strlen pwd_str + 1)) mem1
      some { ssid := mem2.take MAX_SSID_LENGTH
             password := (mem2.drop MAX_SSID_LENGTH).take MAX_PASSWORD_LENGTH }

/-- The firmware with its credentials: the tasks and queues, the buffer
`*wifi_config` (allocated by `wifi_app_start`) and the NVS partition. -/
structure Device where
  /-- The tasks, their queues and their logs. -/
  sys : System
  /-- The buffer `wifi_config` points to. -/
  wifi_config : wifi_config_t
  /-- The NVS partition. -/
  nvs : NvsStore
  /-- Whether the firmware has called `strlen(NULL)` (http_server.c:374-375).
  Its behaviour is undefined from then on: the other fields no longer describe
  it, and no step changes them. -/
  undefined : Bool
  deriving DecidableEq, Repr

/-- What one call of the coordinator does to the buffer and to the store. -/
def Device.apply_effect (d : Device) : Effect → Device
  | .app_nvs_load_sta_creds =>
    { d with
      wifi_config := ((app_nvs_load_sta_creds (some d.wifi_config) d.nvs).2).getD d.wifi_config }
  | .app_nvs_save_sta_creds =>
    { d with nvs := (app_nvs_save_sta_creds (some d.wifi_config) d.nvs).2 }
  | .app_nvs_clear_sta_creds =>
    { d with nvs := (app_nvs_clear_sta_creds d.nvs).2 }
  | _ => d

/-- A client posts `/wifiConnect.json` with these values of the headers
`my-connect-ssid` and `my-connect-pwd` (the empty string for a header the
request lacks): the handler fills the buffer and queues
`WIFI_APP_MSG_CONNECTING_FROM_HTTP_SERVER`, or calls `strlen(NULL)`. The
handler runs only once the server has been started. -/
def Device.wifi_connect_json (d : Device) (ssid password : List Byte) : Device :=
  if d.undefined then d
  else if d.sys.http_server_started then
    match http_server_wifi_connect_json_handler ssid password with
    | some wifi_config =>
      { d with
        wifi_config := wifi_config
        sys := d.sys.step .wifi_connect_json }
    | none => { d with undefined := true }
  else d

/-- One atomic step of the device. When `wifi_app_task` runs, what
`app_nvs_load_sta_creds()` returns is what the store gives, and the calls of
the handler act on the buffer and the store in order. The input
`wifi_connect_json` names no header value: it is the request that lacks both
headers. -/
def Device.step (d : Device) (i : Input) : Device :=
  if d.undefined then d
  else
    match i with
    | .wifi_app_task _ =>
      let nvs_load := (app_nvs_load_sta_creds (some d.wifi_config) d.nvs).1
      match d.sys.wifi_app_queue with
      | [] => d
      | messageID :: _ =>
        (wifi_app_task_step nvs_load messageID d.sys.coord).2.foldl Device.apply_effect
          { d with sys := d.sys.step (.wifi_app_task nvs_load) }
    | .wifi_connect_json => d.wifi_connect_json [] []
    | i => { d with sys := d.sys.step i }

/-- The steps for a list of inputs, in order. -/
def Device.run (d : Device) (inputs : List Input) : Device :=
  inputs.foldl Device.step d

/-- The device when `wifi_app_task` enters its loop, `nvs` being what the NVS
partition holds at boot; `wifi_app_start` has zeroed the buffer. -/
def Device.startup (nvs : NvsStore) : Device :=
  { sys := HomeLamp.startup, wifi_config := wifi_config_zero, nvs := nvs, undefined := false }

/-! ## The event callback interleaved with `wifi_app_task` -/

/-- Where the task of the default event loop stands in the
`WIFI_EVENT_STA_DISCONNECTED` case of `wifi_wifi_app_event_group`
(wifi_app.c:75-89). The callback runs in that task, `wifi_app_task` is another
task, and nothing keeps `wifi_app_task` from running between two statements of
the callback. -/
inductive CallbackPoint
  /-- Not between the test of line 77 and the store of line 88. -/
  | outside
  /-- The test `g_retry_number >= MAX_CONNECTIONS_RETRIES` (line 77) was false;
  `esp_wifi_connect()` (line 87) has not been called yet. -/
  | after_test
  /-- After `esp_wifi_connect()`, before `++g_retry_number` (line 88) reads the
  counter. -/
  | after_connect
  /-- The increment `++g_retry_number` has read `loaded` and has not stored
  `loaded + 1` yet. -/
  | after_load (loaded : Int)
  deriving DecidableEq, Repr

/-- The system together with the point the event callback has reached. -/
structure Interleaved where
  /-- The tasks, their queues and their logs. -/
  sys : System
  /-- Where the event-loop task stands in the callback. -/
  callback : CallbackPoint
  deriving DecidableEq, Repr

/-- What can happen next when the callback is not taken as one step. -/
inductive Action
  /-- An atomic step of `System.step`. The event loop runs one callback at a
  time, so a driver event is taken only while the callback is `outside`. -/
  | input (i : Input)
  /-- The event loop invokes the callback for `WIFI_EVENT_STA_DISCONNECTED`,
  which runs up to the test of line 77 and, when the test is true, to its
  `break`. -/
  | callback_test (reason : Nat)
  /-- The event-loop task runs the next part of the callback: the call
  `esp_wifi_connect()`, the read of `++g_retry_number`, or its store. -/
  | callback_advance
  deriving DecidableEq, Repr

/-- One step of the interleaved system. -/
def Interleaved.step (s : Interleaved) : Action → Interleaved
  | .input (.driver_event ev) =>
    match s.callback with
    | .outside => { s with sys := s.sys.step (.driver_event ev) }
    | _ => s
  | .input i => { s with sys := s.sys.step i }
  | .callback_test _ =>
    match s.callback with
    | .outside =>
      if s.sys.coord.g_retry_number ≥ MAX_CONNECTIONS_RETRIES then
        { s with
          sys := System.deliver [.wifi_app_send_message WIFI_APP_MSG_STA_DISCONNECTED] s.sys }
      else { s with callback := .after_test }
    | _ => s
  | .callback_advance =>
    match s.callback with
    | .outside => s
    | .after_test =>
      { sys := System.deliver [.esp_wifi_connect] s.sys, callback := .after_connect }
    | .after_connect => { s with callback := .after_load s.sys.coord.g_retry_number }
    | .after_load loaded =>
      { sys := System.deliver [.store_retry_number (loaded + 1)]
          { s.sys with coord := { s.sys.coord with g_retry_number := loaded + 1 } }
        callback := .outside }

/-- The steps for a list of actions, in order. -/
def Interleaved.run (s : Interleaved) (actions : List Action) : Interleaved :=
  actions.foldl Interleaved.step s

/-- The interleaved system when `wifi_app_task` enters its loop. -/
def Interleaved.startup : Interleaved :=
  { sys := HomeLamp.startup, callback := .outside }

/-! ## More vocabulary of the statements -/

/-- Number of microseconds in a second: `esp_timer_start_once` (esp_timer.h)
takes its timeout in microseconds. -/
def MICROSECONDS_PER_SECOND : Nat := 1000000

/-- Whether every `esp_ota_set_boot_partition` call in `calls` comes after an
`esp_ota_end` call that returned `ESP_OK`; `finalized` tells whether such a
call has been seen before `calls`. -/
def set_boot_after_finalize (finalized : Bool) : List OtaCall → Bool
  | [] => true
  | .esp_ota_end _ ret :: calls =>
    set_boot_after_finalize (finalized || decide (ret = ESP_OK)) calls
  | .esp_ota_set_boot_partition _ :: calls =>
    finalized && set_boot_after_finalize finalized calls
  | _ :: calls => set_boot_after_finalize finalized calls

/-- The SSID `home` as bytes. -/
def ssid_home : List Byte := [104, 111, 109, 101]

/-- The password `secret123` as bytes. -/
def password_secret123 : List Byte := [115, 101, 99, 114, 101, 116, 49, 50, 51]

/-- The SSID `old` as bytes. -/
def ssid_old : List Byte := [111, 108, 100]

/-- The password `oldpass1` as bytes. -/
def password_old : List Byte := [111, 108, 100, 112, 97, 115, 115, 49]

/-- The three bytes `h`, NUL, `i`. -/
def ssid_h_nul_i : List Byte := [104, 0, 105]

/-- An NVS partition in which an earlier run has saved the credentials
`old` / `oldpass1`. -/
def store_with_old_credentials : NvsStore :=
  (app_nvs_save_sta_creds (some (sta_credentials ssid_old password_old)) []).2

/-- The retry counter lies between 0 and `MAX_CONNECTIONS_RETRIES`. -/
def retry_in_range (sys : System) : Prop :=
  0 ≤ sys.coord.g_retry_number ∧ sys.coord.g_retry_number ≤ MAX_CONNECTIONS_RETRIES

/-- The bounds every step of the interleaved system keeps: the counter is never
negative and at most `MAX_CONNECTIONS_RETRIES + 1`, and while the callback is
between its test and its store both the counter and the value the increment
has read are at most `MAX_CONNECTIONS_RETRIES`. -/
def Interleaved.retry_bounds (s : Interleaved) : Prop :=
  0 ≤ s.sys.coord.g_retry_number ∧
  match s.callback with
  | .outside => s.sys.coord.g_retry_number ≤ MAX_CONNECTIONS_RETRIES + 1
  | .after_test => s.sys.coord.g_retry_number ≤ MAX_CONNECTIONS_RETRIES
  | .after_connect => s.sys.coord.g_retry_number ≤ MAX_CONNECTIONS_RETRIES
  | .after_load loaded =>
    s.sys.coord.g_retry_number ≤ MAX_CONNECTIONS_RETRIES ∧
      0 ≤ loaded ∧ loaded ≤ MAX_CONNECTIONS_RETRIES

/-! ## The coordinator: retries and the terminal disconnect -/

/-- Claim C1: in every state with `g_retry_number < MAX_CONNECTIONS_RETRIES`, and
for every reason code, the callback run for a station-disconnected event calls
`esp_wifi_connect` and stores the counter plus one, and that is all it does:
the system afterwards differs from the one before only in the counter (one
more) and in the log of calls (the connect and the store). Both queues, the
three session flags and the monitor's `g_wifi_connect_status` are unchanged. -/
theorem C1_retry_below_max (sys : System) (reason : Nat)
    (h : sys.coord.g_retry_number < MAX_CONNECTIONS_RETRIES) :
    wifi_wifi_app_event_group (.WIFI_EVENT_STA_DISCONNECTED reason) sys.coord.g_retry_number =
        (sys.coord.g_retry_number + 1,
          [.esp_wifi_connect, .store_retry_number (sys.coord.g_retry_number + 1)]) ∧
    sys.step (.driver_event (.WIFI_EVENT_STA_DISCONNECTED reason)) =
      { sys with
        coord := { sys.coord with g_retry_number := sys.coord.g_retry_number + 1 }
        log := sys.log ++
          [.esp_wifi_connect, .store_retry_number (sys.coord.g_retry_number + 1)] } := by
  have hlt : ¬ sys.coord.g_retry_number ≥ MAX_CONNECTIONS_RETRIES := not_le.mpr h
  constructor
  · simp [wifi_wifi_app_event_group, hlt]
  · simp [System.step, wifi_wifi_app_event_group, hlt, System.deliver, System.apply_effect]

/-- Claim C1 at the startup state (counter 0) with reason 201. -/
theorem C1_retry_below_max_witness :
    startup.coord.g_retry_number < MAX_CONNECTIONS_RETRIES ∧
    wifi_wifi_app_event_group (.WIFI_EVENT_STA_DISCONNECTED 201) startup.coord.g_retry_number =
        (startup.coord.g_retry_number + 1,
          [.esp_wifi_connect, .store_retry_number (startup.coord.g_retry_number + 1)]) ∧
    startup.step (.driver_event (.WIFI_EVENT_STA_DISCONNECTED 201)) =
      { startup with
        coord := { startup.coord with g_retry_number := startup.coord.g_retry_number + 1 }
        log := startup.log ++
          [.esp_wifi_connect, .store_retry_number (startup.coord.g_retry_number + 1)] } :=
  ⟨by decide, C1_retry_below_max startup 201 (by decide)⟩

/-- Claim C2 as stated fails: from the startup state (counter 0) the counter is 4
after four station-disconnected events, the callback run for the fifth event
again calls `esp_wifi_connect` and stores 5, and after five events the
coordinator's queue is what it was, with no `WIFI_APP_MSG_STA_DISCONNECTED`. -/
theorem C2_fifth_disconnect_is_retried :
    (startup.run (List.replicate 4 (sta_disconnected 201))).coord.g_retry_number = 4 ∧
    wifi_wifi_app_event_group (.WIFI_EVENT_STA_DISCONNECTED 201) 4 =
      (5, [.esp_wifi_connect, .store_retry_number 5]) ∧
    (startup.run (List.replicate 5 (sta_disconnected 201))).wifi_app_queue =
      startup.wifi_app_queue ∧
    WIFI_APP_MSG_STA_DISCONNECTED ∉
      (startup.run (List.replicate 5 (sta_disconnected 201))).wifi_app_queue := by
  decide

/-- Claim C2, amended: starting from `g_retry_number = 0`, with the maximum 5, of
six consecutive station-disconnected events (any reason codes) the first five
are silently retried: each calls `esp_wifi_connect` and stores the next counter
value 1, 2, 3, 4, 5, and nothing is queued. The sixth makes no connect call and
queues `WIFI_APP_MSG_STA_DISCONNECTED`, the counter staying 5. -/
theorem C2_six_disconnects (sys : System) (r1 r2 r3 r4 r5 r6 : Nat)
    (h : sys.coord.g_retry_number = 0) :
    sys.run [sta_disconnected r1, sta_disconnected r2, sta_disconnected r3,
        sta_disconnected r4, sta_disconnected r5] =
      { sys with
        coord := { sys.coord with g_retry_number := 5 }
        log := sys.log ++
          [.esp_wifi_connect, .store_retry_number 1, .esp_wifi_connect, .store_retry_number 2,
           .esp_wifi_connect, .store_retry_number 3, .esp_wifi_connect, .store_retry_number 4,
           .esp_wifi_connect, .store_retry_number 5] } ∧
    sys.run [sta_disconnected r1, sta_disconnected r2, sta_disconnected r3,
        sta_disconnected r4, sta_disconnected r5, sta_disconnected r6] =
      { sys with
        coord := { sys.coord with g_retry_number := 5 }
        wifi_app_queue := sys.wifi_app_queue ++ [WIFI_APP_MSG_STA_DISCONNECTED]
        log := sys.log ++
          [.esp_wifi_connect, .store_retry_number 1, .esp_wifi_connect, .store_retry_number 2,
           .esp_wifi_connect, .store_retry_number 3, .esp_wifi_connect, .store_retry_number 4,
           .esp_wifi_connect, .store_retry_number 5,
           .wifi_app_send_message WIFI_APP_MSG_STA_DISCONNECTED] } := by
  simp [System.run, System.step, sta_disconnected, wifi_wifi_app_event_group, h,
    System.deliver, System.apply_effect, MAX_CONNECTIONS_RETRIES]

/-- Claim C2, amended, at the startup state with reason codes 201, 201, 15, 201, 2, 201. -/
theorem C2_six_disconnects_witness :
    startup.coord.g_retry_number = 0 ∧
    startup.run [sta_disconnected 201, sta_disconnected 201, sta_disconnected 15,
        sta_disconnected 201, sta_disconnected 2, sta_disconnected 201] =
      { startup with
        coord := { startup.coord with g_retry_number := 5 }
        wifi_app_queue := startup.wifi_app_queue ++ [WIFI_APP_MSG_STA_DISCONNECTED]
        log := startup.log ++
          [.esp_wifi_connect, .store_retry_number 1, .esp_wifi_connect, .store_retry_number 2,
           .esp_wifi_connect, .store_retry_number 3, .esp_wifi_connect, .store_retry_number 4,
           .esp_wifi_connect, .store_retry_number 5,
           .wifi_app_send_message WIFI_APP_MSG_STA_DISCONNECTED] } :=
  ⟨rfl, (C2_six_disconnects startup 201 201 15 201 2 201 rfl).2⟩

/-- Claim C3 fails on the code. In every state with BIT0 clear and BIT1 set the
handler of `WIFI_APP_MSG_STA_DISCONNECTED` clears BIT1, but the message it sends
to the monitor is `WIFI_REASON_CONNECTION_FAIL`, a disconnect reason of the
driver, which is not `HTTP_MSG_WIFI_CONNECT_FAIL`. The monitor's switch has no
case for it, so the monitor state is unchanged whatever it was; in particular a
status `HTTP_WIFI_STATUS_CONNECTING` does not become
`HTTP_WIFI_STATUS_CONNECT_FAIL`. End to end: from startup, a client connect
request followed by six station disconnects, every queued message processed,
leaves `g_wifi_connect_status` at `HTTP_WIFI_STATUS_CONNECTING`. -/
theorem C3_terminal_disconnect_sends_reason_code (g : Int) (user nvs_load : Bool)
    (m : Monitor) :
    wifi_app_task_step nvs_load WIFI_APP_MSG_STA_DISCONNECTED ⟨g, ⟨false, true, user⟩⟩ =
      (⟨g, ⟨false, false, user⟩⟩,
        [.http_server_monitor_send_message WIFI_REASON_CONNECTION_FAIL]) ∧
    WIFI_REASON_CONNECTION_FAIL ≠ HTTP_MSG_WIFI_CONNECT_FAIL ∧
    http_server_monitor_step WIFI_REASON_CONNECTION_FAIL m = (m, []) ∧
    (http_server_monitor_step WIFI_REASON_CONNECTION_FAIL
        ⟨HTTP_WIFI_STATUS_CONNECTING, OTA_UPDATE_PENDING⟩).1.g_wifi_connect_status ≠
      HTTP_WIFI_STATUS_CONNECT_FAIL ∧
    (startup.run ([.wifi_app_task false, .wifi_app_task false, .wifi_connect_json,
        .wifi_app_task false, .http_server_monitor] ++ List.replicate 6 (sta_disconnected 201) ++
        [.wifi_app_task false, .http_server_monitor])).monitor.g_wifi_connect_status =
      HTTP_WIFI_STATUS_CONNECTING := by
  refine ⟨?_, by decide, ?_, by decide, by decide⟩
  · simp [wifi_app_task_step, WIFI_APP_MSG_STA_DISCONNECTED,
      WIFI_APP_MSG_STA_LOAD_SAVED_CREDENTIALS, WIFI_APP_MSG_START_HTTP_SERVER,
      WIFI_APP_MSG_CONNECTING_FROM_HTTP_SERVER, WIFI_APP_MSG_STA_CONNECTED_GOT_IP]
  · simp [http_server_monitor_step, WIFI_REASON_CONNECTION_FAIL, HTTP_MSG_WIFI_CONNECT_INIT,
      HTTP_MSG_WIFI_CONNECT_SUCCESS, HTTP_MSG_WIFI_USER_DISCONNECT, HTTP_MSG_WIFI_CONNECT_FAIL,
      HTTP_MSG_OTA_UPDATE_SUCCESSFUL, HTTP_MSG_OTA_UPDATE_FAILED]

/-! ## The update receiver: the receive loop -/

/-- Claim C4 fails on the code: the `continue` taken on `HTTPD_SOCK_ERR_TIMEOUT`
jumps to the loop condition, which fails because `receive_len` is negative. So,
in every loop state and whatever reads would follow, a timed-out read is the
last read: control goes on to `esp_ota_end` with nothing but that read added to
the calls. For the sample request, a timeout between the two chunks makes the
handler finalise, set the boot target and report success after writing only
the payload bytes `A B` of the first chunk, whereas the same reads without the
timeout hand `A B C D` to the sink. -/
theorem C4_timeout_leaves_receive_loop (sink : OtaSink) (content_length : Nat)
    (script : List RecvResult) (st : OtaState) :
    ota_receive_loop sink content_length (RecvResult.timeout :: script) st =
      ota_after_loop sink
        { st with
          calls := st.calls ++
            [.httpd_req_recv (min content_length buffer_size) HTTPD_SOCK_ERR_TIMEOUT] } ∧
    http_server_OTA_update_handler
        (sample_request [.data [104, 13, 10, 13, 10, 65, 66], .timeout, .data [67, 68]]
          sink_ok) =
      ⟨.returned ESP_OK,
        [.httpd_req_recv 9 7, .esp_ota_begin ESP_OK, .esp_ota_write [65, 66] ESP_OK,
         .httpd_req_recv 9 HTTPD_SOCK_ERR_TIMEOUT, .esp_ota_end true ESP_OK,
         .esp_ota_set_boot_partition ESP_OK,
         .http_server_monitor_send_message HTTP_MSG_OTA_UPDATE_SUCCESSFUL]⟩ ∧
    sink_bytes (http_server_OTA_update_handler
        (sample_request [.data [104, 13, 10, 13, 10, 65, 66], .timeout, .data [67, 68]]
          sink_ok)).calls = [65, 66] ∧
    sink_bytes (http_server_OTA_update_handler
        (sample_request [.data [104, 13, 10, 13, 10, 65, 66], .data [67, 68]] sink_ok)).calls =
      [65, 66, 67, 68] := by
  refine ⟨?_, by decide, by decide, by decide⟩
  simp [ota_receive_loop, ota_loop_body, RecvResult.timeout, RecvResult.receive_len,
    RecvResult.store, HTTPD_SOCK_ERR_TIMEOUT, ota_loop_condition]

theorem monitor_reports_append (a b : List OtaCall) :
    monitor_reports (a ++ b) = monitor_reports a ++ monitor_reports b := by
  induction a with
  | nil => rfl
  | cons c a ih => cases c <;> simp [monitor_reports, ih]

theorem sink_bytes_append (a b : List OtaCall) :
    sink_bytes (a ++ b) = sink_bytes a ++ sink_bytes b := by
  induction a with
  | nil => rfl
  | cons c a ih => cases c <;> simp [sink_bytes, ih]

theorem permanent_read_errors_append (a b : List OtaCall) :
    permanent_read_errors (a ++ b) = permanent_read_errors a + permanent_read_errors b := by
  induction a with
  | nil => simp [permanent_read_errors]
  | cons c a ih => cases c <;> simp [permanent_read_errors, ih, Nat.add_assoc]

theorem set_boot_calls_append (a b : List OtaCall) :
    set_boot_calls (a ++ b) = set_boot_calls a + set_boot_calls b := by
  induction a with
  | nil => simp [set_boot_calls]
  | cons c a ih => cases c <;> simp [set_boot_calls, ih, Nat.add_assoc]

theorem esp_ota_end_calls_append (a b : List OtaCall) :
    esp_ota_end_calls (a ++ b) = esp_ota_end_calls a + esp_ota_end_calls b := by
  induction a with
  | nil => simp [esp_ota_end_calls]
  | cons c a ih => cases c <;> simp [esp_ota_end_calls, ih, Nat.add_assoc]

theorem starts_with_length (needle l : List Byte) (h : starts_with needle l = true) :
    needle.length ≤ l.length := by
  induction needle generalizing l with
  | nil => simp
  | cons a needle ih =>
    cases l with
    | nil => simp [starts_with] at h
    | cons b l =>
      simp only [starts_with] at h
      split_ifs at h
      · have := ih l h
        simp only [List.length_cons]
        omega

theorem starts_with_append (needle l t : List Byte) (h : starts_with needle l = true) :
    starts_with needle (l ++ t) = true := by
  induction needle generalizing l with
  | nil => simp [starts_with]
  | cons a needle ih =>
    cases l with
    | nil => simp [starts_with] at h
    | cons b l =>
      simp only [starts_with] at h
      split_ifs at h with hab
      · simp only [List.cons_append, starts_with, hab, if_true]
        exact ih l h

theorem starts_with_of_append (needle l t : List Byte)
    (h : starts_with needle (l ++ t) = true) (hlen : needle.length ≤ l.length) :
    starts_with needle l = true := by
  induction needle generalizing l with
  | nil => simp [starts_with]
  | cons a needle ih =>
    cases l with
    | nil => simp at hlen
    | cons b l =>
      simp only [List.cons_append, starts_with] at h
      split_ifs at h with hab
      · simp only [starts_with, hab, if_true]
        exact ih l h (by simp only [List.length_cons] at hlen; omega)

theorem find_first_bound (needle : List Byte) (l : List Byte) (i : Nat)
    (h : find_first needle l = some i) : i + needle.length ≤ l.length := by
  induction l generalizing i with
  | nil => simp [find_first] at h
  | cons b rest ih =>
    unfold find_first at h
    split_ifs at h with hp
    · have hpre := starts_with_length needle (b :: rest) hp
      simp only [Option.some.injEq] at h
      omega
    · simp only [Option.map_eq_some'] at h
      obtain ⟨j, hj, rfl⟩ := h
      have := ih j hj
      simp only [List.length_cons]
      omega

theorem find_first_append (needle : List Byte) (l t : List Byte) (i : Nat)
    (h : find_first needle l = some i) : find_first needle (l ++ t) = some i := by
  induction l generalizing i with
  | nil => simp [find_first] at h
  | cons b rest ih =>
    unfold find_first at h
    split_ifs at h with hp
    · simp only [Option.some.injEq] at h
      subst h
      have hp2 : starts_with needle (b :: (rest ++ t)) = true :=
        starts_with_append needle (b :: rest) t hp
      simp [find_first, hp2]
    · simp only [Option.map_eq_some'] at h
      obtain ⟨j, hj, rfl⟩ := h
      have hlen := find_first_bound needle rest j hj
      have hp2 : ¬ starts_with needle (b :: (rest ++ t)) = true := fun hc =>
        hp (starts_with_of_append needle (b :: rest) t hc
          (by simp only [List.length_cons]; omega))
      simp [find_first, hp2, ih j hj]

theorem strstr_from_of_find_first (needle : List Byte) (l t : List Byte) (i offset : Nat)
    (h : find_first needle l = some i) (hnul : ∀ b ∈ l.take i, b ≠ 0) :
    strstr_from needle (l ++ t) offset = .found (offset + i) := by
  induction l generalizing i offset with
  | nil => simp [find_first] at h
  | cons b rest ih =>
    unfold find_first at h
    split_ifs at h with hp
    · simp only [Option.some.injEq] at h
      subst h
      have hp2 : starts_with needle (b :: (rest ++ t)) = true :=
        starts_with_append needle (b :: rest) t hp
      simp [strstr_from, hp2]
    · simp only [Option.map_eq_some'] at h
      obtain ⟨j, hj, rfl⟩ := h
      have hlen := find_first_bound needle rest j hj
      have hp2 : ¬ starts_with needle (b :: (rest ++ t)) = true := fun hc =>
        hp (starts_with_of_append needle (b :: rest) t hc
          (by simp only [List.length_cons]; omega))
      have hb : b ≠ 0 := hnul b (by simp)
      have hrest : ∀ c ∈ rest.take j, c ≠ 0 := fun c hc => hnul c (by simp [hc])
      have := ih j (offset + 1) hj hrest
      rw [List.cons_append, strstr_from, if_neg hp2, if_neg hb, this]
      congr 1
      omega

theorem ota_loop_body_later_chunk (sink : OtaSink) (content_length : Nat) (c : List Byte)
    (st : OtaState) (hst : st.is_request_body_started = true)
    (hsum : st.content_received + c.length < 2 ^ 32) :
    ota_loop_body sink content_length (.data c) st =
      ota_loop_condition content_length (c.length : Int)
        { st with
          ota_buff := c ++ st.ota_buff.drop c.length
          content_received := st.content_received + c.length
          writes := st.writes + 1
          calls := st.calls ++
            [.httpd_req_recv (min content_length buffer_size) (c.length : Int),
             .esp_ota_write c (sink.esp_ota_write st.writes)] } := by
  have hneg : ¬ ((c.length : Int) < 0) := by omega
  have hmod : (st.content_received + c.length) % 4294967296 =
      st.content_received + c.length := by omega
  simp [ota_loop_body, RecvResult.receive_len, RecvResult.store, hst, hneg, hmod]

theorem ota_receive_loop_chunks (sink : OtaSink) (content_length : Nat)
    (hL : content_length < 2 ^ 32) (chunks : List (List Byte)) (st : OtaState)
    (hst : st.is_request_body_started = true)
    (hchunks : ∀ c ∈ chunks, 0 < c.length)
    (hsum : st.content_received + chunks.flatten.length < content_length) :
    ∃ st1, ota_receive_loop sink content_length (chunks.map .data) st =
        ota_after_loop sink st1 ∧
      sink_bytes st1.calls = sink_bytes st.calls ++ chunks.flatten ∧
      monitor_reports st1.calls = monitor_reports st.calls := by
  induction chunks generalizing st with
  | nil =>
    have hb := ota_loop_body_later_chunk sink content_length [] st hst
      (by simp at hsum ⊢; omega)
    refine ⟨{ st with
        ota_buff := [] ++ st.ota_buff.drop ([] : List Byte).length
        content_received := st.content_received + ([] : List Byte).length
        writes := st.writes + 1
        calls := st.calls ++
          [.httpd_req_recv (min content_length buffer_size) (([] : List Byte).length : Int),
           .esp_ota_write [] (sink.esp_ota_write st.writes)] }, ?_, ?_, ?_⟩
    · simp only [List.map_nil, ota_receive_loop]
      rw [hb]
      simp only [ota_loop_condition, List.length_nil, Nat.cast_zero, lt_self_iff_false,
        false_and, if_false]
    · simp [sink_bytes_append, sink_bytes]
    · simp [monitor_reports_append, monitor_reports]
  | cons c chunks ih =>
    have hc : 0 < c.length := hchunks c (by simp)
    have hlen : (c :: chunks).flatten.length = c.length + chunks.flatten.length := by simp
    have hb := ota_loop_body_later_chunk sink content_length c st hst (by omega)
    have hcond : (0 < (c.length : Int)) ∧ st.content_received + c.length < content_length := by
      constructor <;> omega
    obtain ⟨st1, h1, h2, h3⟩ := ih
      { st with
        ota_buff := c ++ st.ota_buff.drop c.length
        content_received := st.content_received + c.length
        writes := st.writes + 1
        calls := st.calls ++
          [.httpd_req_recv (min content_length buffer_size) (c.length : Int),
           .esp_ota_write c (sink.esp_ota_write st.writes)] }
      hst (fun d hd => hchunks d (by simp [hd])) (by simp only; omega)
    refine ⟨st1, ?_, ?_, ?_⟩
    · simp only [List.map_cons, ota_receive_loop]
      rw [hb]
      simp only [ota_loop_condition, gt_iff_lt, hcond, and_self, if_true]
      exact h1
    · rw [h2]
      simp [sink_bytes_append, sink_bytes]
    · rw [h3]
      simp [monitor_reports_append, monitor_reports]

theorem ota_loop_body_first_chunk (sink : OtaSink) (content_length : Nat) (stack c0 : List Byte)
    (i : Nat) (hbegin : sink.esp_ota_begin = ESP_OK)
    (hlen : c0.length ≤ buffer_size) (hfind : find_first CRLFCRLF c0 = some i)
    (hnul : ∀ b ∈ c0.take i, b ≠ 0) :
    ota_loop_body sink content_length (.data c0)
        { ota_buff := stack, content_received := 0, is_request_body_started := false,
          writes := 0, calls := [] } =
      ota_loop_condition content_length (c0.length : Int)
        { ota_buff := c0 ++ stack.drop c0.length
          content_received := c0.length - (i + 4)
          is_request_body_started := true
          writes := 1
          calls :=
            [.httpd_req_recv (min content_length buffer_size) (c0.length : Int),
             .esp_ota_begin ESP_OK,
             .esp_ota_write (c0.drop (i + 4)) (sink.esp_ota_write 0)] } := by
  have hb : i + 4 ≤ c0.length := find_first_bound CRLFCRLF c0 i hfind
  have hbs : buffer_size = 1024 := rfl
  have hneg : ¬ ((c0.length : Int) < 0) := by omega
  have hstr : strstr (c0 ++ stack.drop c0.length) CRLFCRLF = .found i := by
    have := strstr_from_of_find_first CRLFCRLF c0 (stack.drop c0.length) i 0 hfind hnul
    simpa [strstr] using this
  have hpart : (((c0.length : Int) - ((i + 4 : Nat) : Int)) % 2 ^ 32).toNat =
      c0.length - (i + 4) := by
    omega
  have hmod : (c0.length - (i + 4)) % 2 ^ 32 = c0.length - (i + 4) :=
    Nat.mod_eq_of_lt (by omega)
  have hfit : i + 4 + (c0.length - (i + 4)) ≤ buffer_size := by omega
  have hdata : ((c0 ++ stack.drop c0.length).drop (i + 4)).take (c0.length - (i + 4)) =
      c0.drop (i + 4) := by
    rw [List.drop_append_of_le_length hb]
    exact List.take_left' (by simp)
  simp only [ota_loop_body, RecvResult.receive_len, RecvResult.store, hneg, if_false,
    Bool.false_eq_true, not_false_eq_true, if_true, hstr, hbegin, ne_eq, not_true_eq_false]
  rw [hpart, if_pos hfit, hdata, Nat.zero_add, hmod]
  rfl

theorem ota_after_loop_shape (sink : OtaSink) (st : OtaState) :
    ∃ extra, (ota_after_loop sink st).calls = st.calls ++ extra ∧
      (ota_after_loop sink st).outcome = .returned ESP_OK ∧
      permanent_read_errors extra = 0 ∧ esp_ota_end_calls extra = 1 ∧
      (monitor_reports extra = [HTTP_MSG_OTA_UPDATE_SUCCESSFUL] ∨
        monitor_reports extra = [HTTP_MSG_OTA_UPDATE_FAILED]) := by
  unfold ota_after_loop
  simp only []
  split_ifs <;>
    simp [monitor_reports, esp_ota_end_calls, permanent_read_errors]

theorem sink_bytes_ota_after_loop (sink : OtaSink) (st : OtaState) :
    sink_bytes (ota_after_loop sink st).calls = sink_bytes st.calls := by
  unfold ota_after_loop
  simp only []
  split_ifs <;> simp [sink_bytes_append, sink_bytes]

/-- Claim C5 as stated fails: the nine bytes `h \r \n \r \n A B C D` delivered as
the chunks `h \r \n` and `\r \n A B C D` have the payload `A B C D` after the
terminator, but the handler searches the terminator in `ota_buff` after the
first read only. With zeros after the three received bytes `strstr` returns
`NULL`, so the handler leaves defined behaviour and has handed no byte to the
sink. -/
theorem C5_terminator_split_across_chunks :
    spec_payload ([104, 13, 10] ++ [13, 10, 65, 66, 67, 68]) = some [65, 66, 67, 68] ∧
    http_server_OTA_update_handler
        (sample_request [.data [104, 13, 10], .data [13, 10, 65, 66, 67, 68]] sink_ok) =
      ⟨.undefined, [.httpd_req_recv 9 3]⟩ ∧
    sink_bytes (http_server_OTA_update_handler
        (sample_request [.data [104, 13, 10], .data [13, 10, 65, 66, 67, 68]] sink_ok)).calls ≠
      [65, 66, 67, 68] := by
  decide

/-- Claim C5, amended: let the source deliver exactly `content_length` bytes
(fewer than 2^32) as non-empty chunks of at most `buffer_size` bytes, let the
first chunk hold the whole first terminator "\r\n\r\n", at offset `i`, with no
NUL byte before it, and let `esp_ota_begin` succeed. Then, whatever `ota_buff`
held on entry and whatever the writes return, the bytes handed to the sink are
exactly the bytes of the stream after that terminator, in order; there are
`content_length - (i + 4)` of them; the handler returns `ESP_OK` and has sent
exactly one report. -/
theorem C5_payload_when_terminator_in_first_chunk (content_length : Nat) (stack : List Byte)
    (sink : OtaSink) (chunk0 : List Byte) (chunks : List (List Byte)) (i : Nat)
    (hbegin : sink.esp_ota_begin = ESP_OK)
    (hL : content_length < 2 ^ 32)
    (htotal : (chunk0 ++ chunks.flatten).length = content_length)
    (hsize : ∀ c ∈ chunk0 :: chunks, 0 < c.length ∧ c.length ≤ buffer_size)
    (hfind : find_first CRLFCRLF chunk0 = some i)
    (hnul : ∀ b ∈ chunk0.take i, b ≠ 0) :
    spec_payload (chunk0 ++ chunks.flatten) =
      some (sink_bytes (http_server_OTA_update_handler
        { content_len := content_length, script := (chunk0 :: chunks).map .data,
          update_partition := true, stack := stack, sink := sink }).calls) ∧
    (sink_bytes (http_server_OTA_update_handler
        { content_len := content_length, script := (chunk0 :: chunks).map .data,
          update_partition := true, stack := stack, sink := sink }).calls).length =
      content_length - (i + 4) ∧
    (http_server_OTA_update_handler
        { content_len := content_length, script := (chunk0 :: chunks).map .data,
          update_partition := true, stack := stack, sink := sink }).outcome = .returned ESP_OK ∧
    (monitor_reports (http_server_OTA_update_handler
        { content_len := content_length, script := (chunk0 :: chunks).map .data,
          update_partition := true, stack := stack, sink := sink }).calls).length = 1 := by
  have hb : i + 4 ≤ chunk0.length := find_first_bound CRLFCRLF chunk0 i hfind
  have h0 := hsize chunk0 (by simp)
  have hlen : (chunk0 ++ chunks.flatten).length = chunk0.length + chunks.flatten.length := by
    simp
  have hfirst := ota_loop_body_first_chunk sink content_length stack chunk0 i hbegin h0.2
    hfind hnul
  have hcond : (0 < (chunk0.length : Int)) ∧ chunk0.length - (i + 4) < content_length := by
    constructor <;> omega
  obtain ⟨st1, h1, h2, h3⟩ := ota_receive_loop_chunks sink content_length hL chunks
    { ota_buff := chunk0 ++ stack.drop chunk0.length
      content_received := chunk0.length - (i + 4)
      is_request_body_started := true
      writes := 1
      calls :=
        [.httpd_req_recv (min content_length buffer_size) (chunk0.length : Int),
         .esp_ota_begin ESP_OK,
         .esp_ota_write (chunk0.drop (i + 4)) (sink.esp_ota_write 0)] }
    rfl (fun c hc => (hsize c (by simp [hc])).1) (by simp only; omega)
  have hrun : http_server_OTA_update_handler
      { content_len := content_length, script := (chunk0 :: chunks).map .data,
        update_partition := true, stack := stack, sink := sink } = ota_after_loop sink st1 := by
    simp only [http_server_OTA_update_handler, Bool.not_eq_true, Bool.true_eq_false, if_false,
      List.map_cons, ota_receive_loop]
    rw [hfirst]
    simp only [ota_loop_condition, gt_iff_lt, hcond, and_self, if_true]
    exact h1
  obtain ⟨extra, hc, ho, _, _, hm⟩ := ota_after_loop_shape sink st1
  have hbytes : sink_bytes (ota_after_loop sink st1).calls =
      (chunk0 ++ chunks.flatten).drop (i + 4) := by
    rw [sink_bytes_ota_after_loop, h2, List.drop_append_of_le_length hb]
    simp [sink_bytes]
  rw [hrun]
  refine ⟨?_, ?_, ho, ?_⟩
  · rw [hbytes]
    simp [spec_payload, find_first_append CRLFCRLF chunk0 chunks.flatten i hfind]
  · rw [hbytes, List.length_drop, htotal]
  · rw [hc, monitor_reports_append, h3]
    rcases hm with hm | hm <;> simp [hm, monitor_reports]

/-- Claim C5, amended, for the nine bytes `h \r \n \r \n A B C D` delivered as
the chunks `h \r \n \r \n A B` and `C D`: the sink receives `A B C D`. -/
theorem C5_payload_when_terminator_in_first_chunk_witness :
    spec_payload ([104, 13, 10, 13, 10, 65, 66] ++ [[67, 68]].flatten) =
      some (sink_bytes (http_server_OTA_update_handler
        { content_len := 9
          script := ([104, 13, 10, 13, 10, 65, 66] :: [[67, 68]]).map .data
          update_partition := true, stack := List.replicate 1024 0, sink := sink_ok }).calls) ∧
    (sink_bytes (http_server_OTA_update_handler
        { content_len := 9
          script := ([104, 13, 10, 13, 10, 65, 66] :: [[67, 68]]).map .data
          update_partition := true, stack := List.replicate 1024 0,
          sink := sink_ok }).calls).length = 9 - (1 + 4) ∧
    (http_server_OTA_update_handler
        { content_len := 9
          script := ([104, 13, 10, 13, 10, 65, 66] :: [[67, 68]]).map .data
          update_partition := true, stack := List.replicate 1024 0,
          sink := sink_ok }).outcome = .returned ESP_OK ∧
    (monitor_reports (http_server_OTA_update_handler
        { content_len := 9
          script := ([104, 13, 10, 13, 10, 65, 66] :: [[67, 68]]).map .data
          update_partition := true, stack := List.replicate 1024 0,
          sink := sink_ok }).calls).length = 1 :=
  C5_payload_when_terminator_in_first_chunk 9 (List.replicate 1024 0) sink_ok
    [104, 13, 10, 13, 10, 65, 66] [[67, 68]] 1 rfl (by decide) (by decide) (by decide)
    (by decide) (by decide)

/-! ## The update receiver: how an invocation ends -/

theorem ota_loop_body_shape (sink : OtaSink) (content_length : Nat) (r : RecvResult)
    (st : OtaState) : step_shape st.calls (ota_loop_body sink content_length r st) := by
  unfold ota_loop_body ota_loop_condition
  simp only []
  split_ifs <;> (try split) <;> (try split_ifs) <;>
    simp [step_shape, quiet, monitor_reports, set_boot_calls, esp_ota_end_calls,
      permanent_read_errors, *]

theorem run_shape_of_after_loop (sink : OtaSink) (pre : List OtaCall) (st : OtaState)
    (h : ∃ extra, st.calls = pre ++ extra ∧ quiet extra ∧ permanent_read_errors extra = 0) :
    run_shape pre (ota_after_loop sink st) := by
  obtain ⟨e1, h1, ⟨hq1, hq2, hq3⟩, hp⟩ := h
  obtain ⟨e2, h2, ho, hp2, he, hm⟩ := ota_after_loop_shape sink st
  refine ⟨e1 ++ e2, by rw [h2, h1, List.append_assoc], Or.inl ⟨ho, ?_, ?_, ?_⟩⟩
  · rw [permanent_read_errors_append, hp, hp2]
  · rw [esp_ota_end_calls_append, hq3, he]
  · rw [monitor_reports_append, hq1]
    simpa using hm

theorem run_shape_of_done (pre : List OtaCall) (run : OtaRun)
    (h : step_shape pre (.done run)) : run_shape pre run := by
  obtain ⟨extra, hc, hq, ho⟩ := h
  refine ⟨extra, hc, Or.inr ?_⟩
  rcases ho with ho | ⟨ho, hp⟩
  · exact Or.inl ⟨ho, hq⟩
  · exact Or.inr ⟨ho, hq, hp⟩

theorem ota_receive_loop_shape (sink : OtaSink) (content_length : Nat)
    (script : List RecvResult) (st : OtaState) :
    run_shape st.calls (ota_receive_loop sink content_length script st) := by
  induction script generalizing st with
  | nil =>
    have hb := ota_loop_body_shape sink content_length (.data []) st
    rw [ota_receive_loop]
    cases h1 : ota_loop_body sink content_length (.data []) st <;> rw [h1] at hb
    · exact run_shape_of_after_loop sink st.calls _ hb
    · exact run_shape_of_after_loop sink st.calls _ hb
    · exact run_shape_of_done st.calls _ hb
  | cons r script ih =>
    have hb := ota_loop_body_shape sink content_length r st
    rw [ota_receive_loop]
    cases h1 : ota_loop_body sink content_length r st <;> rw [h1] at hb
    · rename_i st1
      obtain ⟨e1, h1, ⟨hq1, hq2, hq3⟩, hp⟩ := hb
      obtain ⟨e2, h2, hcases⟩ := ih st1
      refine ⟨e1 ++ e2, by rw [h2, h1, List.append_assoc], ?_⟩
      rcases hcases with ⟨ho, hp2, he, hm⟩ | ⟨ho, hm, hs, he⟩ | ⟨ho, ⟨hm, hs, he⟩, hp2⟩
      · refine Or.inl ⟨ho, ?_, ?_, ?_⟩
        · rw [permanent_read_errors_append, hp, hp2]
        · rw [esp_ota_end_calls_append, hq3, he]
        · rw [monitor_reports_append, hq1]
          simpa using hm
      · refine Or.inr (Or.inl ⟨ho, ?_, ?_, ?_⟩)
        · rw [monitor_reports_append, hq1, hm]; rfl
        · rw [set_boot_calls_append, hq2, hs]
        · rw [esp_ota_end_calls_append, hq3, he]
      · refine Or.inr (Or.inr ⟨ho, ⟨?_, ?_, ?_⟩, ?_⟩)
        · rw [monitor_reports_append, hq1, hm]; rfl
        · rw [set_boot_calls_append, hq2, hs]
        · rw [esp_ota_end_calls_append, hq3, he]
        · rw [permanent_read_errors_append, hp, hp2]
    · exact run_shape_of_after_loop sink st.calls _ hb
    · exact run_shape_of_done st.calls _ hb

theorem http_server_OTA_update_handler_shape (req : OtaRequest) :
    run_shape [] (http_server_OTA_update_handler req) := by
  unfold http_server_OTA_update_handler
  split_ifs with h
  · exact ota_receive_loop_shape req.sink req.content_len req.script _
  · exact ⟨[], rfl, Or.inr (Or.inl ⟨rfl, rfl, rfl, rfl⟩)⟩

/-- Claim C6 as stated fails: for the sample request whose second read returns
the permanent error -1 after the first chunk has been received and written,
the handler returns `ESP_FAIL` straight from the read, and
`HTTP_MSG_OTA_UPDATE_FAILED` is not among the messages it sent to the monitor. -/
theorem C6_read_error_after_bytes :
    http_server_OTA_update_handler
        (sample_request [.data [104, 13, 10, 13, 10, 65, 66], .error 0, .data [67, 68]]
          sink_ok) =
      ⟨.returned ESP_FAIL,
        [.httpd_req_recv 9 7, .esp_ota_begin ESP_OK, .esp_ota_write [65, 66] ESP_OK,
         .httpd_req_recv 9 (-1)]⟩ ∧
    HTTP_MSG_OTA_UPDATE_FAILED ∉ monitor_reports (http_server_OTA_update_handler
        (sample_request [.data [104, 13, 10, 13, 10, 65, 66], .error 0, .data [67, 68]]
          sink_ok)).calls := by
  decide

/-- Claim C6, amended: in every invocation in which some `httpd_req_recv` returns
a permanent error (negative, not `HTTPD_SOCK_ERR_TIMEOUT`), at whatever point
of the stream, the handler returns `ESP_FAIL`, never calls
`esp_ota_set_boot_partition`, and sends no message to the monitor. -/
theorem C6_permanent_read_error (req : OtaRequest)
    (h : 0 < permanent_read_errors (http_server_OTA_update_handler req).calls) :
    (http_server_OTA_update_handler req).outcome = .returned ESP_FAIL ∧
    set_boot_calls (http_server_OTA_update_handler req).calls = 0 ∧
    monitor_reports (http_server_OTA_update_handler req).calls = [] := by
  obtain ⟨extra, hc, hcases⟩ := http_server_OTA_update_handler_shape req
  rw [hc] at h ⊢
  simp only [List.nil_append] at h ⊢
  rcases hcases with ⟨_, hp, _⟩ | ⟨ho, hm, hs, _⟩ | ⟨_, _, hp⟩
  · omega
  · exact ⟨ho, hs, hm⟩
  · omega

/-- Claim C6, amended, for the sample request whose third read returns the
permanent error -2 after both chunks have been received. -/
theorem C6_permanent_read_error_witness :
    0 < permanent_read_errors (http_server_OTA_update_handler
        (sample_request [.data [104, 13, 10, 13, 10, 65, 66], .data [67], .error 1]
          sink_ok)).calls ∧
    (http_server_OTA_update_handler
        (sample_request [.data [104, 13, 10, 13, 10, 65, 66], .data [67], .error 1]
          sink_ok)).outcome = .returned ESP_FAIL ∧
    set_boot_calls (http_server_OTA_update_handler
        (sample_request [.data [104, 13, 10, 13, 10, 65, 66], .data [67], .error 1]
          sink_ok)).calls = 0 ∧
    monitor_reports (http_server_OTA_update_handler
        (sample_request [.data [104, 13, 10, 13, 10, 65, 66], .data [67], .error 1]
          sink_ok)).calls = [] :=
  ⟨by decide,
    C6_permanent_read_error
      (sample_request [.data [104, 13, 10, 13, 10, 65, 66], .data [67], .error 1] sink_ok)
      (by decide)⟩

/-- Claim C7 as stated fails: for the sample request with an update partition
and a sink whose `esp_ota_begin` fails, the handler returns `ESP_FAIL` right
after `esp_ota_begin` and has sent no report to the monitor. -/
theorem C7_begin_failure_sends_no_report :
    http_server_OTA_update_handler
        (sample_request [.data [104, 13, 10, 13, 10, 65, 66], .data [67, 68]]
          { sink_ok with esp_ota_begin := ESP_FAIL }) =
      ⟨.returned ESP_FAIL, [.httpd_req_recv 9 7, .esp_ota_begin ESP_FAIL]⟩ ∧
    monitor_reports (http_server_OTA_update_handler
        (sample_request [.data [104, 13, 10, 13, 10, 65, 66], .data [67, 68]]
          { sink_ok with esp_ota_begin := ESP_FAIL })).calls = [] := by
  decide

/-- Claim C7, amended: an invocation that returns `ESP_OK` has sent exactly one
message to the monitor, `HTTP_MSG_OTA_UPDATE_SUCCESSFUL` or
`HTTP_MSG_OTA_UPDATE_FAILED`; an invocation that returns `ESP_FAIL` (no update
partition, permanent read error, `esp_ota_begin` failure) has sent none, and so
has one that leaves defined behaviour. In every case the number of reports is
the number of `esp_ota_end` calls: a report is sent exactly on the paths that
reach finalize. Without an update partition the handler returns `ESP_FAIL`
having made no call at all. -/
theorem C7_reports_per_outcome (req : OtaRequest) :
    (match (http_server_OTA_update_handler req).outcome with
      | .returned ret =>
        (ret = ESP_OK ∧
          (monitor_reports (http_server_OTA_update_handler req).calls =
              [HTTP_MSG_OTA_UPDATE_SUCCESSFUL] ∨
            monitor_reports (http_server_OTA_update_handler req).calls =
              [HTTP_MSG_OTA_UPDATE_FAILED])) ∨
        (ret = ESP_FAIL ∧ monitor_reports (http_server_OTA_update_handler req).calls = [])
      | .undefined => monitor_reports (http_server_OTA_update_handler req).calls = []) ∧
    (monitor_reports (http_server_OTA_update_handler req).calls).length =
      esp_ota_end_calls (http_server_OTA_update_handler req).calls ∧
    http_server_OTA_update_handler { req with update_partition := false } =
      ⟨.returned ESP_FAIL, []⟩ := by
  obtain ⟨extra, hc, hcases⟩ := http_server_OTA_update_handler_shape req
  rw [hc]
  simp only [List.nil_append]
  refine ⟨?_, ?_, ?_⟩
  · rcases hcases with ⟨ho, _, _, hm⟩ | ⟨ho, hm, _, _⟩ | ⟨ho, ⟨hm, _, _⟩, _⟩
    · rw [ho]; exact Or.inl ⟨rfl, hm⟩
    · rw [ho]; exact Or.inr ⟨rfl, hm⟩
    · rw [ho]; exact hm
  · rcases hcases with ⟨_, _, he, hm⟩ | ⟨_, hm, _, he⟩ | ⟨_, ⟨hm, _, he⟩, _⟩
    · rcases hm with hm | hm <;> rw [hm, he] <;> rfl
    · rw [hm, he]; rfl
    · rw [hm, he]; rfl
  · simp [http_server_OTA_update_handler]

/-! ## The update receiver: the result of a write -/

theorem ota_loop_body_forget_write_ret (sink : OtaSink) (w : Nat → Int) (content_length : Nat)
    (r : RecvResult) (st st1 : OtaState) (h : st1.forget_write_ret = st.forget_write_ret) :
    (ota_loop_body { sink with esp_ota_write := w } content_length r st1).forget_write_ret =
      (ota_loop_body sink content_length r st).forget_write_ret := by
  obtain ⟨buf, cr, started, writes, calls⟩ := st
  obtain ⟨buf1, cr1, started1, writes1, calls1⟩ := st1
  simp only [OtaState.forget_write_ret, OtaState.mk.injEq] at h
  obtain ⟨rfl, rfl, rfl, rfl, hcalls⟩ := h
  unfold ota_loop_body ota_loop_condition
  simp only []
  split_ifs <;> (try split) <;> (try split_ifs) <;>
    simp [OtaLoopStep.forget_write_ret, OtaState.forget_write_ret, OtaRun.forget_write_ret,
      OtaCall.forget_write_ret, hcalls]

theorem ota_after_loop_forget_write_ret (sink : OtaSink) (w : Nat → Int)
    (st st1 : OtaState) (h : st1.forget_write_ret = st.forget_write_ret) :
    (ota_after_loop { sink with esp_ota_write := w } st1).forget_write_ret =
      (ota_after_loop sink st).forget_write_ret := by
  obtain ⟨buf, cr, started, writes, calls⟩ := st
  obtain ⟨buf1, cr1, started1, writes1, calls1⟩ := st1
  simp only [OtaState.forget_write_ret, OtaState.mk.injEq] at h
  obtain ⟨rfl, rfl, rfl, rfl, hcalls⟩ := h
  unfold ota_after_loop
  simp only []
  split_ifs <;>
    simp [OtaRun.forget_write_ret, OtaCall.forget_write_ret, hcalls]

theorem ota_receive_loop_forget_write_ret (sink : OtaSink) (w : Nat → Int) (content_length : Nat)
    (script : List RecvResult) (st st1 : OtaState)
    (h : st1.forget_write_ret = st.forget_write_ret) :
    (ota_receive_loop { sink with esp_ota_write := w } content_length script
        st1).forget_write_ret =
      (ota_receive_loop sink content_length script st).forget_write_ret := by
  induction script generalizing st st1 with
  | nil =>
    have hb := ota_loop_body_forget_write_ret sink w content_length (.data []) st st1 h
    rw [ota_receive_loop, ota_receive_loop]
    cases h1 : ota_loop_body { sink with esp_ota_write := w } content_length (.data []) st1 <;>
      cases h2 : ota_loop_body sink content_length (.data []) st <;>
      rw [h1, h2] at hb <;>
      simp only [OtaLoopStep.forget_write_ret, OtaLoopStep.again.injEq, OtaLoopStep.leave.injEq,
        OtaLoopStep.done.injEq, reduceCtorEq] at hb
    · exact ota_after_loop_forget_write_ret sink w _ _ hb
    · exact ota_after_loop_forget_write_ret sink w _ _ hb
    · exact hb
  | cons r script ih =>
    have hb := ota_loop_body_forget_write_ret sink w content_length r st st1 h
    rw [ota_receive_loop, ota_receive_loop]
    cases h1 : ota_loop_body { sink with esp_ota_write := w } content_length r st1 <;>
      cases h2 : ota_loop_body sink content_length r st <;>
      rw [h1, h2] at hb <;>
      simp only [OtaLoopStep.forget_write_ret, OtaLoopStep.again.injEq, OtaLoopStep.leave.injEq,
        OtaLoopStep.done.injEq, reduceCtorEq] at hb
    · exact ih _ _ hb
    · exact ota_after_loop_forget_write_ret sink w _ _ hb
    · exact hb

/-- Claim C8 as stated fails: for the sample request delivered in two chunks, with
a sink whose first `esp_ota_write` returns `ESP_FAIL` and whose other operations
succeed, the handler goes on after the failed write: it reads and writes the
second chunk, calls `esp_ota_end` and `esp_ota_set_boot_partition`, and reports
`HTTP_MSG_OTA_UPDATE_SUCCESSFUL`. -/
theorem C8_failed_write_is_ignored :
    http_server_OTA_update_handler
        (sample_request [.data [104, 13, 10, 13, 10, 65, 66], .data [67, 68]]
          { sink_ok with esp_ota_write := fun n => if n = 0 then ESP_FAIL else ESP_OK }) =
      ⟨.returned ESP_OK,
        [.httpd_req_recv 9 7, .esp_ota_begin ESP_OK, .esp_ota_write [65, 66] ESP_FAIL,
         .httpd_req_recv 9 2, .esp_ota_write [67, 68] ESP_OK,
         .httpd_req_recv 9 0, .esp_ota_write [] ESP_OK,
         .esp_ota_end true ESP_OK, .esp_ota_set_boot_partition ESP_OK,
         .http_server_monitor_send_message HTTP_MSG_OTA_UPDATE_SUCCESSFUL]⟩ := by
  decide

/-- Claim C8, amended: the handler never looks at what `esp_ota_write` returns.
For every request, replacing the results of the writes by any others (failures
included) changes neither how the invocation ends nor any of its calls, apart
from the results recorded for the writes themselves: the same reads, the same
chunks written, the same `esp_ota_end` and `esp_ota_set_boot_partition` calls,
the same report. A write failure alone therefore aborts nothing; the update is
reported failed only if finalize or set-boot-target fails. -/
theorem C8_write_results_do_not_matter (req : OtaRequest) (w : Nat → Int) :
    (http_server_OTA_update_handler
        { req with sink := { req.sink with esp_ota_write := w } }).outcome =
      (http_server_OTA_update_handler req).outcome ∧
    (http_server_OTA_update_handler
        { req with sink := { req.sink with esp_ota_write := w } }).calls.map
          OtaCall.forget_write_ret =
      (http_server_OTA_update_handler req).calls.map OtaCall.forget_write_ret := by
  have key : (http_server_OTA_update_handler
        { req with sink := { req.sink with esp_ota_write := w } }).forget_write_ret =
      (http_server_OTA_update_handler req).forget_write_ret := by
    unfold http_server_OTA_update_handler
    split_ifs
    · exact ota_receive_loop_forget_write_ret req.sink w req.content_len req.script _ _ rfl
    · rfl
  simp only [OtaRun.forget_write_ret, OtaRun.mk.injEq] at key
  exact key

/-! ## The coordinator: session flags and the client connect request -/

/-- Claim C9 as stated fails. From startup: the saved credentials load and a
connect is issued (BIT0 set), the HTTP server starts, a client posts a connect
request, and `wifi_app_task` handles it: BIT0 and BIT1 are both set. If the
driver then reports six station disconnects and the resulting terminal message
is handled, BIT1 is still set afterwards. -/
theorem C9_two_flags_set :
    (startup.run [.wifi_app_task true, .wifi_app_task true, .wifi_connect_json,
        .wifi_app_task true]).coord.bits = ⟨true, true, false⟩ ∧
    ¬ (startup.run [.wifi_app_task true, .wifi_app_task true, .wifi_connect_json,
        .wifi_app_task true]).coord.bits.count ≤ 1 ∧
    (startup.run ([.wifi_app_task true, .wifi_app_task true, .wifi_connect_json,
        .wifi_app_task true] ++ List.replicate 6 (sta_disconnected 201) ++
        [.wifi_app_task true])).coord.bits = ⟨false, true, false⟩ := by
  decide

/-- Claim C9, amended: the flags are independent bits. In every state, handling
`WIFI_APP_MSG_STA_LOAD_SAVED_CREDENTIALS` with credentials found sets BIT0,
handling the client connect request sets BIT1 and handling the user disconnect
request sets BIT2, each leaving the other two bits as they were. Handling
`WIFI_APP_MSG_STA_CONNECTED_GOT_IP` leaves BIT0 and BIT1 clear and BIT2 as it
was. Handling the terminal `WIFI_APP_MSG_STA_DISCONNECTED` clears the first set
bit in the order BIT0, BIT1, BIT2 and no other, so one flag fewer is set
afterwards (none, if at most one was set before). -/
theorem C9_flags_after_each_message (nvs_load : Bool) (s : Coordinator) :
    (wifi_app_task_step true WIFI_APP_MSG_STA_LOAD_SAVED_CREDENTIALS s).1.bits =
      { s.bits with LOAD_SAVED_CREDENTIALS_BIT := true } ∧
    (wifi_app_task_step nvs_load WIFI_APP_MSG_CONNECTING_FROM_HTTP_SERVER s).1.bits =
      { s.bits with CONNECTING_FROM_HTTP_SERVER_BIT := true } ∧
    (wifi_app_task_step nvs_load WIFI_APP_MSG_USER_REQUESTED_STA_DISCONNECT s).1.bits =
      { s.bits with USER_REQUESTED_STA_DISCONNECT_BIT := true } ∧
    (wifi_app_task_step nvs_load WIFI_APP_MSG_STA_CONNECTED_GOT_IP s).1.bits =
      ⟨false, false, s.bits.USER_REQUESTED_STA_DISCONNECT_BIT⟩ ∧
    (wifi_app_task_step nvs_load WIFI_APP_MSG_STA_DISCONNECTED s).1.bits =
      (if s.bits.LOAD_SAVED_CREDENTIALS_BIT then
        { s.bits with LOAD_SAVED_CREDENTIALS_BIT := false }
      else if s.bits.CONNECTING_FROM_HTTP_SERVER_BIT then
        { s.bits with CONNECTING_FROM_HTTP_SERVER_BIT := false }
      else { s.bits with USER_REQUESTED_STA_DISCONNECT_BIT := false }) ∧
    (wifi_app_task_step nvs_load WIFI_APP_MSG_STA_DISCONNECTED s).1.bits.count =
      s.bits.count - 1 := by
  obtain ⟨g, ⟨b0, b1, b2⟩⟩ := s
  cases b0 <;> cases b1 <;> cases b2 <;> exact ⟨rfl, rfl, rfl, rfl, rfl, rfl⟩

/-- Claim C10 as stated fails: in the state with `g_retry_number` at the maximum,
the handler of the client connect request calls `esp_wifi_connect` third and
stores 0 to `g_retry_number` fourth; the store does not come before the connect
call. -/
theorem C10_connect_precedes_reset :
    (wifi_app_task_step false WIFI_APP_MSG_CONNECTING_FROM_HTTP_SERVER
        ⟨MAX_CONNECTIONS_RETRIES, ⟨false, false, false⟩⟩).2 =
      [.enable_light_color .color_BLUE, .esp_wifi_set_config, .esp_wifi_connect,
       .store_retry_number 0, .http_server_monitor_send_message HTTP_MSG_WIFI_CONNECT_INIT] ∧
    ¬ List.indexOf (Effect.store_retry_number 0)
          (wifi_app_task_step false WIFI_APP_MSG_CONNECTING_FROM_HTTP_SERVER
            ⟨MAX_CONNECTIONS_RETRIES, ⟨false, false, false⟩⟩).2 <
        List.indexOf Effect.esp_wifi_connect
          (wifi_app_task_step false WIFI_APP_MSG_CONNECTING_FROM_HTTP_SERVER
            ⟨MAX_CONNECTIONS_RETRIES, ⟨false, false, false⟩⟩).2 := by
  decide

/-- Claim C10, amended: in every state, also with `g_retry_number` at the maximum,
handling the client connect request leaves `g_retry_number = 0`; its calls are,
in order, the light set to blue, `esp_wifi_set_config`, `esp_wifi_connect`, the
store of 0 to `g_retry_number`, and the monitor message
`HTTP_MSG_WIFI_CONNECT_INIT`: the counter is reset in the same handler run,
after the connect call. -/
theorem C10_reset_after_connect (nvs_load : Bool) (s : Coordinator) :
    (wifi_app_task_step nvs_load WIFI_APP_MSG_CONNECTING_FROM_HTTP_SERVER s).1.g_retry_number =
      0 ∧
    (wifi_app_task_step nvs_load WIFI_APP_MSG_CONNECTING_FROM_HTTP_SERVER s).2 =
      [.enable_light_color .color_BLUE, .esp_wifi_set_config, .esp_wifi_connect,
       .store_retry_number 0, .http_server_monitor_send_message HTTP_MSG_WIFI_CONNECT_INIT] ∧
    List.indexOf Effect.esp_wifi_connect
        (wifi_app_task_step nvs_load WIFI_APP_MSG_CONNECTING_FROM_HTTP_SERVER s).2 <
      List.indexOf (Effect.store_retry_number 0)
        (wifi_app_task_step nvs_load WIFI_APP_MSG_CONNECTING_FROM_HTTP_SERVER s).2 := by
  have h : (wifi_app_task_step nvs_load WIFI_APP_MSG_CONNECTING_FROM_HTTP_SERVER s).2 =
      [.enable_light_color .color_BLUE, .esp_wifi_set_config, .esp_wifi_connect,
       .store_retry_number 0, .http_server_monitor_send_message HTTP_MSG_WIFI_CONNECT_INIT] := rfl
  refine ⟨rfl, h, ?_⟩
  rw [h]
  decide

/-! ## The coordinator: the terminal disconnect, the saved and the submitted credentials -/

/-- Claim C11: in every state with `g_retry_number >= MAX_CONNECTIONS_RETRIES`, and
for every reason code, the callback run for a station-disconnected event makes
one call, `wifi_app_send_message(WIFI_APP_MSG_STA_DISCONNECTED)`, and leaves the
counter as it is: the system afterwards differs from the one before only in
that message appended to the coordinator's queue and to the log of calls. No
`esp_wifi_connect` is made. -/
theorem C11_terminal_at_max (sys : System) (reason : Nat)
    (h : sys.coord.g_retry_number ≥ MAX_CONNECTIONS_RETRIES) :
    wifi_wifi_app_event_group (.WIFI_EVENT_STA_DISCONNECTED reason) sys.coord.g_retry_number =
        (sys.coord.g_retry_number,
          [.wifi_app_send_message WIFI_APP_MSG_STA_DISCONNECTED]) ∧
    sys.step (.driver_event (.WIFI_EVENT_STA_DISCONNECTED reason)) =
      { sys with
        wifi_app_queue := sys.wifi_app_queue ++ [WIFI_APP_MSG_STA_DISCONNECTED]
        log := sys.log ++ [.wifi_app_send_message WIFI_APP_MSG_STA_DISCONNECTED] } := by
  constructor
  · simp [wifi_wifi_app_event_group, h]
  · simp [System.step, wifi_wifi_app_event_group, h, System.deliver, System.apply_effect]

/-- Claim C11 at the state reached from startup by a user disconnect request
(counter forced to 5), with reason 8. -/
theorem C11_terminal_at_max_witness :
    (startup.run [.wifi_app_task false, .wifi_app_task false, .wifi_disconnect_json,
        .wifi_app_task false]).coord.g_retry_number ≥ MAX_CONNECTIONS_RETRIES ∧
    (startup.run [.wifi_app_task false, .wifi_app_task false, .wifi_disconnect_json,
        .wifi_app_task false]).step (.driver_event (.WIFI_EVENT_STA_DISCONNECTED 8)) =
      { startup.run [.wifi_app_task false, .wifi_app_task false, .wifi_disconnect_json,
          .wifi_app_task false] with
        wifi_app_queue :=
          (startup.run [.wifi_app_task false, .wifi_app_task false, .wifi_disconnect_json,
            .wifi_app_task false]).wifi_app_queue ++ [WIFI_APP_MSG_STA_DISCONNECTED]
        log :=
          (startup.run [.wifi_app_task false, .wifi_app_task false, .wifi_disconnect_json,
            .wifi_app_task false]).log ++
            [.wifi_app_send_message WIFI_APP_MSG_STA_DISCONNECTED] } :=
  ⟨by decide,
    (C11_terminal_at_max
      (startup.run [.wifi_app_task false, .wifi_app_task false, .wifi_disconnect_json,
        .wifi_app_task false]) 8 (by decide)).2⟩

/-- Claim C12: in every state, handling `WIFI_APP_MSG_STA_CONNECTED_GOT_IP` with
BIT0 clear sets the light to warm white, notifies the monitor and calls
`app_nvs_save_sta_creds` once; with BIT0 set it makes the first two calls only,
neither the save nor the clear, and clears BIT0. In both cases BIT1 is clear
afterwards, BIT2 and the retry counter are as before. -/
theorem C12_got_ip_saves_unless_loaded (g : Int) (b1 b2 nvs_load : Bool) :
    wifi_app_task_step nvs_load WIFI_APP_MSG_STA_CONNECTED_GOT_IP ⟨g, ⟨false, b1, b2⟩⟩ =
      (⟨g, ⟨false, false, b2⟩⟩,
        [.enable_light_color .color_WARM_WHITE,
         .http_server_monitor_send_message HTTP_MSG_WIFI_CONNECT_SUCCESS,
         .app_nvs_save_sta_creds]) ∧
    ((wifi_app_task_step nvs_load WIFI_APP_MSG_STA_CONNECTED_GOT_IP
        ⟨g, ⟨false, b1, b2⟩⟩).2.count .app_nvs_save_sta_creds = 1) ∧
    wifi_app_task_step nvs_load WIFI_APP_MSG_STA_CONNECTED_GOT_IP ⟨g, ⟨true, b1, b2⟩⟩ =
      (⟨g, ⟨false, false, b2⟩⟩,
        [.enable_light_color .color_WARM_WHITE,
         .http_server_monitor_send_message HTTP_MSG_WIFI_CONNECT_SUCCESS]) ∧
    ((wifi_app_task_step nvs_load WIFI_APP_MSG_STA_CONNECTED_GOT_IP
        ⟨g, ⟨true, b1, b2⟩⟩).2.count .app_nvs_save_sta_creds = 0) ∧
    ((wifi_app_task_step nvs_load WIFI_APP_MSG_STA_CONNECTED_GOT_IP
        ⟨g, ⟨true, b1, b2⟩⟩).2.count .app_nvs_clear_sta_creds = 0) := by
  have h0 : wifi_app_task_step nvs_load WIFI_APP_MSG_STA_CONNECTED_GOT_IP
      ⟨g, ⟨false, b1, b2⟩⟩ =
      (⟨g, ⟨false, false, b2⟩⟩,
        [.enable_light_color .color_WARM_WHITE,
         .http_server_monitor_send_message HTTP_MSG_WIFI_CONNECT_SUCCESS,
         .app_nvs_save_sta_creds]) := by
    cases b1 <;> cases b2 <;> rfl
  have h1 : wifi_app_task_step nvs_load WIFI_APP_MSG_STA_CONNECTED_GOT_IP
      ⟨g, ⟨true, b1, b2⟩⟩ =
      (⟨g, ⟨false, false, b2⟩⟩,
        [.enable_light_color .color_WARM_WHITE,
         .http_server_monitor_send_message HTTP_MSG_WIFI_CONNECT_SUCCESS]) := by
    cases b1 <;> cases b2 <;> rfl
  refine ⟨h0, ?_, h1, ?_, ?_⟩
  · rw [h0]; rfl
  · rw [h1]; rfl
  · rw [h1]; rfl

/-- Claim C13: in every state with BIT0 set, handling the terminal
`WIFI_APP_MSG_STA_DISCONNECTED` makes exactly one call,
`app_nvs_clear_sta_creds()`, so nothing is sent to the monitor; it clears BIT0
and leaves BIT1, BIT2 and the retry counter as they were. -/
theorem C13_terminal_with_saved_credentials (g : Int) (b1 b2 nvs_load : Bool) :
    wifi_app_task_step nvs_load WIFI_APP_MSG_STA_DISCONNECTED ⟨g, ⟨true, b1, b2⟩⟩ =
      (⟨g, ⟨false, b1, b2⟩⟩, [.app_nvs_clear_sta_creds]) ∧
    (wifi_app_task_step nvs_load WIFI_APP_MSG_STA_DISCONNECTED
        ⟨g, ⟨true, b1, b2⟩⟩).2.count .app_nvs_clear_sta_creds = 1 ∧
    ∀ m, Effect.http_server_monitor_send_message m ∉
      (wifi_app_task_step nvs_load WIFI_APP_MSG_STA_DISCONNECTED ⟨g, ⟨true, b1, b2⟩⟩).2 := by
  have h : wifi_app_task_step nvs_load WIFI_APP_MSG_STA_DISCONNECTED ⟨g, ⟨true, b1, b2⟩⟩ =
      (⟨g, ⟨false, b1, b2⟩⟩, [.app_nvs_clear_sta_creds]) := rfl
  refine ⟨h, ?_, ?_⟩
  · rw [h]; rfl
  · intro m
    rw [h]
    simp

/-! ## The monitor -/

/-- Claim C14 fails on the code: whatever the monitor state, processing
`HTTP_MSG_OTA_UPDATE_SUCCESSFUL` sets `g_fw_update_status` to
`OTA_UPDATE_SUCCESS` and arms the one-shot timer with the value `8 * 10000`,
that is 80000. `esp_timer_start_once` takes microseconds, so the delay is 80
milliseconds: less than one second, not between 10 and 100 seconds. -/
theorem C14_restart_delay_is_80000_microseconds (m : Monitor) :
    http_server_monitor_step HTTP_MSG_OTA_UPDATE_SUCCESSFUL m =
      ({ m with g_fw_update_status := OTA_UPDATE_SUCCESS },
        [.esp_timer_create, .esp_timer_start_once 80000]) ∧
    80000 < 1 * MICROSECONDS_PER_SECOND ∧
    ¬ (10 * MICROSECONDS_PER_SECOND ≤ 80000 ∧ 80000 < 100 * MICROSECONDS_PER_SECOND) := by
  refine ⟨rfl, by decide, by decide⟩

/-- Claim C15: in every monitor state, one step of `http_server_monitor` sets
`g_wifi_connect_status` to `HTTP_WIFI_STATUS_CONNECTING` for
`HTTP_MSG_WIFI_CONNECT_INIT`, to `HTTP_WIFI_STATUS_CONNECT_SUCCESS` for
`HTTP_MSG_WIFI_CONNECT_SUCCESS`, to `HTTP_WIFI_STATUS_CONNECT_FAIL` for
`HTTP_MSG_WIFI_CONNECT_FAIL` and to `HTTP_WIFI_STATUS_DISCONNECTED` for
`HTTP_MSG_WIFI_USER_DISCONNECT`, leaving `g_fw_update_status` as it was; it sets
`g_fw_update_status` to `OTA_UPDATE_SUCCESS` for
`HTTP_MSG_OTA_UPDATE_SUCCESSFUL` and to `OTA_UPDATE_FAILED` for
`HTTP_MSG_OTA_UPDATE_FAILED`, leaving `g_wifi_connect_status` as it was. -/
theorem C15_monitor_status_per_message (m : Monitor) :
    (http_server_monitor_step HTTP_MSG_WIFI_CONNECT_INIT m).1 =
      { m with g_wifi_connect_status := HTTP_WIFI_STATUS_CONNECTING } ∧
    (http_server_monitor_step HTTP_MSG_WIFI_CONNECT_SUCCESS m).1 =
      { m with g_wifi_connect_status := HTTP_WIFI_STATUS_CONNECT_SUCCESS } ∧
    (http_server_monitor_step HTTP_MSG_WIFI_CONNECT_FAIL m).1 =
      { m with g_wifi_connect_status := HTTP_WIFI_STATUS_CONNECT_FAIL } ∧
    (http_server_monitor_step HTTP_MSG_WIFI_USER_DISCONNECT m).1 =
      { m with g_wifi_connect_status := HTTP_WIFI_STATUS_DISCONNECTED } ∧
    (http_server_monitor_step HTTP_MSG_OTA_UPDATE_SUCCESSFUL m).1 =
      { m with g_fw_update_status := OTA_UPDATE_SUCCESS } ∧
    (http_server_monitor_step HTTP_MSG_OTA_UPDATE_FAILED m).1 =
      { m with g_fw_update_status := OTA_UPDATE_FAILED } :=
  ⟨rfl, rfl, rfl, rfl, rfl, rfl⟩

/-! ## The update receiver: finalize and boot target -/

theorem quiet_append (a b : List OtaCall) (ha : quiet a) (hb : quiet b) : quiet (a ++ b) := by
  obtain ⟨ha1, ha2, ha3⟩ := ha
  obtain ⟨hb1, hb2, hb3⟩ := hb
  refine ⟨?_, ?_, ?_⟩
  · rw [monitor_reports_append, ha1, hb1]; rfl
  · rw [set_boot_calls_append, ha2, hb2]
  · rw [esp_ota_end_calls_append, ha3, hb3]

theorem set_boot_after_finalize_quiet (finalized : Bool) (a b : List OtaCall) (ha : quiet a) :
    set_boot_after_finalize finalized (a ++ b) = set_boot_after_finalize finalized b := by
  induction a with
  | nil => rfl
  | cons c a ih =>
    obtain ⟨h1, h2, h3⟩ := ha
    cases c with
    | esp_ota_end hs ret => simp [esp_ota_end_calls] at h3
    | esp_ota_set_boot_partition ret => simp [set_boot_calls] at h2
    | httpd_req_recv len n =>
      simp only [List.cons_append, set_boot_after_finalize]
      exact ih ⟨by simpa [monitor_reports] using h1, by simpa [set_boot_calls] using h2,
        by simpa [esp_ota_end_calls] using h3⟩
    | esp_ota_begin ret =>
      simp only [List.cons_append, set_boot_after_finalize]
      exact ih ⟨by simpa [monitor_reports] using h1, by simpa [set_boot_calls] using h2,
        by simpa [esp_ota_end_calls] using h3⟩
    | esp_ota_write data ret =>
      simp only [List.cons_append, set_boot_after_finalize]
      exact ih ⟨by simpa [monitor_reports] using h1, by simpa [set_boot_calls] using h2,
        by simpa [esp_ota_end_calls] using h3⟩
    | http_server_monitor_send_message m => simp [monitor_reports] at h1

theorem ota_after_loop_calls (sink : OtaSink) (st : OtaState) :
    (ota_after_loop sink st).calls =
      st.calls ++
        (.esp_ota_end st.is_request_body_started sink.esp_ota_end ::
          (if sink.esp_ota_end = ESP_OK then
            [.esp_ota_set_boot_partition sink.esp_ota_set_boot_partition,
             .http_server_monitor_send_message
               (if sink.esp_ota_set_boot_partition = ESP_OK then HTTP_MSG_OTA_UPDATE_SUCCESSFUL
                else HTTP_MSG_OTA_UPDATE_FAILED)]
          else [.http_server_monitor_send_message HTTP_MSG_OTA_UPDATE_FAILED])) := by
  unfold ota_after_loop
  simp only []
  split_ifs <;> simp_all

theorem ota_receive_loop_ends (sink : OtaSink) (content_length : Nat)
    (script : List RecvResult) (st : OtaState) (hq : quiet st.calls) :
    (∃ st1, quiet st1.calls ∧
        ota_receive_loop sink content_length script st = ota_after_loop sink st1) ∨
      quiet (ota_receive_loop sink content_length script st).calls := by
  induction script generalizing st with
  | nil =>
    have hb := ota_loop_body_shape sink content_length (.data []) st
    rw [ota_receive_loop]
    cases h1 : ota_loop_body sink content_length (.data []) st <;> rw [h1] at hb
    · obtain ⟨extra, hc, hq2, _⟩ := hb
      exact Or.inl ⟨_, by rw [hc]; exact quiet_append _ _ hq hq2, rfl⟩
    · obtain ⟨extra, hc, hq2, _⟩ := hb
      exact Or.inl ⟨_, by rw [hc]; exact quiet_append _ _ hq hq2, rfl⟩
    · obtain ⟨extra, hc, hq2, _⟩ := hb
      exact Or.inr (by rw [hc]; exact quiet_append _ _ hq hq2)
  | cons r script ih =>
    have hb := ota_loop_body_shape sink content_length r st
    rw [ota_receive_loop]
    cases h1 : ota_loop_body sink content_length r st <;> rw [h1] at hb
    · obtain ⟨extra, hc, hq2, _⟩ := hb
      exact ih _ (by rw [hc]; exact quiet_append _ _ hq hq2)
    · obtain ⟨extra, hc, hq2, _⟩ := hb
      exact Or.inl ⟨_, by rw [hc]; exact quiet_append _ _ hq hq2, rfl⟩
    · obtain ⟨extra, hc, hq2, _⟩ := hb
      exact Or.inr (by rw [hc]; exact quiet_append _ _ hq hq2)

/-- Claim C16: once the receive loop has ended, in whatever state, the handler
calls `esp_ota_end` and returns `ESP_OK`. If `esp_ota_end` fails the only
further call is the report `HTTP_MSG_OTA_UPDATE_FAILED`: the boot target is not
set. If it succeeds the handler calls `esp_ota_set_boot_partition` and then
reports `HTTP_MSG_OTA_UPDATE_FAILED` if that call fails and
`HTTP_MSG_OTA_UPDATE_SUCCESSFUL` if it succeeds. In every invocation of the
handler, every `esp_ota_set_boot_partition` call comes after an `esp_ota_end`
call that returned `ESP_OK`. -/
theorem C16_finalize_then_boot_target (sink : OtaSink) (st : OtaState) (req : OtaRequest) :
    (ota_after_loop sink st).outcome = .returned ESP_OK ∧
    (ota_after_loop sink st).calls =
      st.calls ++
        (.esp_ota_end st.is_request_body_started sink.esp_ota_end ::
          (if sink.esp_ota_end = ESP_OK then
            [.esp_ota_set_boot_partition sink.esp_ota_set_boot_partition,
             .http_server_monitor_send_message
               (if sink.esp_ota_set_boot_partition = ESP_OK then HTTP_MSG_OTA_UPDATE_SUCCESSFUL
                else HTTP_MSG_OTA_UPDATE_FAILED)]
          else [.http_server_monitor_send_message HTTP_MSG_OTA_UPDATE_FAILED])) ∧
    set_boot_after_finalize false (http_server_OTA_update_handler req).calls = true := by
  refine ⟨?_, ota_after_loop_calls sink st, ?_⟩
  · obtain ⟨_, _, ho, _⟩ := ota_after_loop_shape sink st
    exact ho
  · have hnil : quiet ([] : List OtaCall) := ⟨rfl, rfl, rfl⟩
    have hquiet : ∀ calls, quiet calls → set_boot_after_finalize false calls = true := by
      intro calls hc
      have := set_boot_after_finalize_quiet false calls [] hc
      rw [List.append_nil] at this
      rw [this]
      rfl
    unfold http_server_OTA_update_handler
    split_ifs
    · rcases ota_receive_loop_ends req.sink req.content_len req.script
        { ota_buff := req.stack, content_received := 0, is_request_body_started := false,
          writes := 0, calls := [] } hnil with ⟨st1, hq1, hrun⟩ | hq1
      · rw [hrun, ota_after_loop_calls, set_boot_after_finalize_quiet false _ _ hq1]
        split_ifs <;> simp [set_boot_after_finalize, *]
      · exact hquiet _ hq1
    · rfl

/-! ## The coordinator: the user disconnect -/

theorem lookup_nvs_namespace_update (name : String)
    (f : List (String × List Byte) → List (String × List Byte)) (store : NvsStore) :
    (nvs_namespace_update name f store).lookup name = (store.lookup name).map f := by
  induction store with
  | nil => rfl
  | cons e store ih =>
    obtain ⟨n, entries⟩ := e
    by_cases h : n = name
    · subst h
      simp [nvs_namespace_update, List.lookup]
    · have h2 : (name == n) = false := by simpa using fun h3 => h h3.symm
      simp [nvs_namespace_update, h, List.lookup, h2, ih]

theorem lookup_nvs_entries_set_self (key : String) (value : List Byte)
    (entries : List (String × List Byte)) :
    (nvs_entries_set key value entries).lookup key = some value := by
  induction entries with
  | nil => simp [nvs_entries_set, List.lookup]
  | cons e entries ih =>
    obtain ⟨k, v⟩ := e
    by_cases h : k = key
    · simp [nvs_entries_set, h, List.lookup]
    · have h2 : (key == k) = false := by simpa using fun h3 => h h3.symm
      simp [nvs_entries_set, h, List.lookup, h2, ih]

theorem lookup_nvs_entries_set_other (key other : String) (value : List Byte)
    (entries : List (String × List Byte)) (hne : other ≠ key) :
    (nvs_entries_set key value entries).lookup other = entries.lookup other := by
  induction entries with
  | nil =>
    have h2 : (other == key) = false := by simpa using hne
    simp [nvs_entries_set, List.lookup, h2]
  | cons e entries ih =>
    obtain ⟨k, v⟩ := e
    by_cases h : k = key
    · subst h
      have h2 : (other == k) = false := by simpa using hne
      simp [nvs_entries_set, List.lookup, h2]
    · by_cases h3 : other = k
      · subst h3
        simp [nvs_entries_set, h, List.lookup]
      · have h4 : (other == k) = false := by simpa using h3
        simp [nvs_entries_set, h, List.lookup, h4, ih]

theorem lookup_append_new (name : String) (entries : List (String × List Byte))
    (store : NvsStore) (h : store.lookup name = none) :
    (store ++ [(name, entries)]).lookup name = some entries := by
  induction store with
  | nil => simp [List.lookup]
  | cons e store ih =>
    obtain ⟨n, es⟩ := e
    by_cases h2 : (name == n) = true
    · simp [List.lookup, h2] at h
    · have h3 : (name == n) = false := by simpa using h2
      simp only [List.lookup, h3] at h
      simp [List.lookup, h3, ih h]

theorem app_nvs_save_sta_creds_stores (config : wifi_config_t) (store : NvsStore) :
    (app_nvs_save_sta_creds (some config) store).1 = ESP_OK ∧
    ((app_nvs_save_sta_creds (some config) store).2.lookup
        app_nvs_sta_credentials_namespace).bind (fun entries => entries.lookup nvs_key_ssid) =
      some (config.ssid.take MAX_SSID_LENGTH) ∧
    ((app_nvs_save_sta_creds (some config) store).2.lookup
        app_nvs_sta_credentials_namespace).bind
          (fun entries => entries.lookup nvs_key_password) =
      some (config.password.take MAX_PASSWORD_LENGTH) := by
  have hne : nvs_key_ssid ≠ nvs_key_password := by decide
  unfold app_nvs_save_sta_creds nvs_open
  cases h : store.lookup app_nvs_sta_credentials_namespace with
  | none =>
    simp [nvs_set_blob, nvs_commit, lookup_nvs_namespace_update, lookup_append_new _ _ _ h,
      lookup_nvs_entries_set_self, lookup_nvs_entries_set_other _ _ _ _ hne]
  | some entries =>
    simp [nvs_set_blob, nvs_commit, lookup_nvs_namespace_update, h,
      lookup_nvs_entries_set_self, lookup_nvs_entries_set_other _ _ _ _ hne]

theorem app_nvs_load_sta_creds_of_stored (config0 : wifi_config_t) (store : NvsStore)
    (ssid password : List Byte)
    (hs : (store.lookup app_nvs_sta_credentials_namespace).bind
      (fun entries => entries.lookup nvs_key_ssid) = some ssid)
    (hp : (store.lookup app_nvs_sta_credentials_namespace).bind
      (fun entries => entries.lookup nvs_key_password) = some password)
    (hls : ssid.length = MAX_SSID_LENGTH) (hlp : password.length = MAX_PASSWORD_LENGTH) :
    app_nvs_load_sta_creds (some config0) store =
      (decide (ssid.headD 0 ≠ 0), some ⟨ssid, password⟩) := by
  cases h : store.lookup app_nvs_sta_credentials_namespace with
  | none => simp [h] at hs
  | some entries =>
    simp only [h, Option.some_bind] at hs hp
    unfold app_nvs_load_sta_creds nvs_open
    simp [h, nvs_get_blob, hs, hp, hls, hlp, wifi_config_zero, ESP_OK]

theorem status_light_append (light : Option color_e) (a b : List Effect) :
    status_light light (a ++ b) = status_light (status_light light a) b := by
  induction a generalizing light with
  | nil => rfl
  | cons e a ih => cases e <;> simp [status_light, ih]

theorem sta_credentials_lengths (ssid password : List Byte)
    (hs : ssid.length ≤ MAX_SSID_LENGTH) (hp : password.length ≤ MAX_PASSWORD_LENGTH) :
    (sta_credentials ssid password).ssid.length = MAX_SSID_LENGTH ∧
    (sta_credentials ssid password).password.length = MAX_PASSWORD_LENGTH := by
  simp only [sta_credentials, List.length_append, List.length_replicate]
  omega

theorem strlen_terminated (value : List Byte) (h : ∀ b ∈ value, b ≠ 0) :
    strlen (value ++ [0]) = value.length := by
  induction value with
  | nil => simp [strlen]
  | cons a value ih =>
    have ha : a ≠ 0 := h a (List.mem_cons_self _ _)
    have ih2 := ih (fun b hb => h b (List.mem_cons_of_mem _ hb))
    simp only [strlen] at ih2 ⊢
    simp only [List.cons_append, List.takeWhile, ha, ne_eq, not_false_eq_true, decide_True,
      List.length_cons]
    exact congrArg (· + 1) ih2

theorem memcpy_ssid (ssid : List Byte) (hs : ssid.length ≤ MAX_SSID_LENGTH) :
    memcpy_at 0 (ssid ++ [0]) (List.replicate (MAX_SSID_LENGTH + MAX_PASSWORD_LENGTH) 0) =
      (ssid ++ List.replicate (MAX_SSID_LENGTH - ssid.length) 0) ++
        List.replicate MAX_PASSWORD_LENGTH 0 := by
  simp only [MAX_SSID_LENGTH, MAX_PASSWORD_LENGTH] at hs ⊢
  simp only [memcpy_at, List.take_zero, List.nil_append, List.length_append, List.length_singleton,
    List.length_replicate, List.drop_replicate, Nat.zero_add, List.append_assoc]
  have h1 : [(0 : Byte)] ++ List.replicate (32 + 64 - (ssid.length + 1)) 0 =
      List.replicate (32 - ssid.length) 0 ++ List.replicate 64 0 := by
    rw [← List.replicate_add]
    have : 32 - ssid.length + 64 = (32 + 64 - (ssid.length + 1)) + 1 := by omega
    rw [this, List.replicate_succ]
    rfl
  rw [h1]
  apply List.take_of_length_le
  simp only [List.length_append, List.length_replicate]
  omega

theorem memcpy_password (a password : List Byte) (ha : a.length = MAX_SSID_LENGTH)
    (hp : password.length ≤ MAX_PASSWORD_LENGTH) :
    memcpy_at MAX_SSID_LENGTH (password ++ [0]) (a ++ List.replicate MAX_PASSWORD_LENGTH 0) =
      a ++ (password ++ List.replicate (MAX_PASSWORD_LENGTH - password.length) 0) := by
  simp only [MAX_SSID_LENGTH, MAX_PASSWORD_LENGTH] at ha hp ⊢
  unfold memcpy_at
  have h1 : List.take 32 (a ++ List.replicate 64 (0 : Byte)) = a := by
    rw [← ha]; exact List.take_left' rfl
  have h2 : List.drop (32 + (password ++ [0]).length) (a ++ List.replicate 64 (0 : Byte)) =
      List.replicate (63 - password.length) 0 := by
    rw [← ha, List.drop_append, List.drop_replicate]
    simp only [List.length_append, List.length_singleton]
    congr 1
    omega
  rw [h1, h2]
  simp only [List.length_append, List.length_replicate, ha, List.append_assoc]
  rw [List.take_append_eq_append_take, List.take_of_length_le (by omega)]
  congr 1
  rw [List.take_append_eq_append_take, List.take_of_length_le (by omega)]
  simp only [ha, List.take_append_eq_append_take, List.length_singleton, List.take_replicate]
  by_cases h64 : password.length = 64
  · simp [h64]
  · have h3 : 32 + 64 - 32 - password.length = (63 - password.length) + 1 := by omega
    rw [h3]
    simp [List.replicate_succ]

theorem http_server_wifi_connect_json_handler_fills (ssid password : List Byte)
    (hse : ssid ≠ []) (hpe : password ≠ [])
    (hsz : ∀ b ∈ ssid, b ≠ 0) (hpz : ∀ b ∈ password, b ≠ 0)
    (hs : ssid.length ≤ MAX_SSID_LENGTH) (hp : password.length ≤ MAX_PASSWORD_LENGTH) :
    http_server_wifi_connect_json_handler ssid password =
      some (sta_credentials ssid password) := by
  have hs1 : get_value_from_header ssid = some (ssid ++ [0]) := by
    cases ssid with
    | nil => exact absurd rfl hse
    | cons a l => simp [get_value_from_header]
  have hp1 : get_value_from_header password = some (password ++ [0]) := by
    cases password with
    | nil => exact absurd rfl hpe
    | cons a l => simp [get_value_from_header]
  have hs2 : (ssid ++ [0]).take (strlen (ssid ++ [0]) + 1) = ssid ++ [0] := by
    rw [strlen_terminated ssid hsz]
    exact List.take_of_length_le (by simp)
  have hp2 : (password ++ [0]).take (strlen (password ++ [0]) + 1) = password ++ [0] := by
    rw [strlen_terminated password hpz]
    exact List.take_of_length_le (by simp)
  have hlen : (ssid ++ List.replicate (MAX_SSID_LENGTH - ssid.length) 0).length =
      MAX_SSID_LENGTH := by
    simp only [List.length_append, List.length_replicate]
    omega
  simp only [http_server_wifi_connect_json_handler, hs1, hp1, hs2, hp2, memcpy_ssid ssid hs,
    memcpy_password _ password hlen hp, sta_credentials]
  have ht : ∀ a b : List Byte, a.length = MAX_SSID_LENGTH →
      (a ++ b).take MAX_SSID_LENGTH = a ∧ (a ++ b).drop MAX_SSID_LENGTH = b :=
    fun a b h => ⟨List.take_left' h, List.drop_left' h⟩
  rw [(ht _ _ hlen).1, (ht _ _ hlen).2]
  congr 2
  apply List.take_of_length_le
  simp only [List.length_append, List.length_replicate]
  omega

/-- Claim C18, amended: let the coordinator be in its startup state (counter 0,
no flag set) with the server running and both queues empty, and let a client
post `/wifiConnect.json` with an SSID of 1 to 32 bytes and a password of 1 to
64 bytes, neither holding a NUL byte. The handler fills the buffer and queues
the request. Handling the request sets BIT1 and issues the connect (light
blue, `esp_wifi_set_config`, `esp_wifi_connect`, counter stored 0, monitor told
`HTTP_MSG_WIFI_CONNECT_INIT`). When the driver then reports
`IP_EVENT_STA_GOT_IP` and every queued message has been processed,
`g_wifi_connect_status` is `HTTP_WIFI_STATUS_CONNECT_SUCCESS`, no flag is set,
the light shows warm white (253, 227, 108), and the store holds under `ssid`
and `password` of the namespace `sta_creds` the two arrays of the buffer, the
submitted SSID and password padded with NULs to 32 and 64 bytes, whatever it
held before; `app_nvs_load_sta_creds` reads that buffer back. -/
theorem C18_client_credentials_saved (d : Device) (ssid password : List Byte)
    (light : Option color_e)
    (hse : ssid ≠ []) (hpe : password ≠ [])
    (hsz : ∀ b ∈ ssid, b ≠ 0) (hpz : ∀ b ∈ password, b ≠ 0)
    (hs : ssid.length ≤ MAX_SSID_LENGTH) (hp : password.length ≤ MAX_PASSWORD_LENGTH)
    (hu : d.undefined = false)
    (hc : d.sys.coord = startup.coord) (hstarted : d.sys.http_server_started = true)
    (hq : d.sys.wifi_app_queue = []) (hm : d.sys.http_server_monitor_queue = []) :
    (d.wifi_connect_json ssid password).undefined = false ∧
    (d.wifi_connect_json ssid password).wifi_config = sta_credentials ssid password ∧
    (d.wifi_connect_json ssid password).sys.wifi_app_queue =
      [WIFI_APP_MSG_CONNECTING_FROM_HTTP_SERVER] ∧
    ((d.wifi_connect_json ssid password).step (.wifi_app_task false)).sys.coord =
      ⟨0, ⟨false, true, false⟩⟩ ∧
    ((d.wifi_connect_json ssid password).step (.wifi_app_task false)).sys.log =
      d.sys.log ++
        [.wifi_app_send_message WIFI_APP_MSG_CONNECTING_FROM_HTTP_SERVER,
         .enable_light_color .color_BLUE, .esp_wifi_set_config, .esp_wifi_connect,
         .store_retry_number 0, .http_server_monitor_send_message HTTP_MSG_WIFI_CONNECT_INIT] ∧
    ((d.wifi_connect_json ssid password).run
        [.wifi_app_task false, .driver_event .IP_EVENT_STA_GOT_IP, .wifi_app_task false,
         .http_server_monitor, .http_server_monitor]).sys.monitor.g_wifi_connect_status =
      HTTP_WIFI_STATUS_CONNECT_SUCCESS ∧
    ((d.wifi_connect_json ssid password).run
        [.wifi_app_task false, .driver_event .IP_EVENT_STA_GOT_IP, .wifi_app_task false,
         .http_server_monitor, .http_server_monitor]).sys.coord = ⟨0, ⟨false, false, false⟩⟩ ∧
    status_light light ((d.wifi_connect_json ssid password).run
        [.wifi_app_task false, .driver_event .IP_EVENT_STA_GOT_IP, .wifi_app_task false,
         .http_server_monitor, .http_server_monitor]).sys.log = some .color_WARM_WHITE ∧
    color_to_rgb_struct .color_WARM_WHITE = (253, 227, 108) ∧
    (((d.wifi_connect_json ssid password).run
        [.wifi_app_task false, .driver_event .IP_EVENT_STA_GOT_IP, .wifi_app_task false,
         .http_server_monitor, .http_server_monitor]).nvs.lookup
          app_nvs_sta_credentials_namespace).bind (fun entries => entries.lookup nvs_key_ssid) =
      some (ssid ++ List.replicate (MAX_SSID_LENGTH - ssid.length) 0) ∧
    (((d.wifi_connect_json ssid password).run
        [.wifi_app_task false, .driver_event .IP_EVENT_STA_GOT_IP, .wifi_app_task false,
         .http_server_monitor, .http_server_monitor]).nvs.lookup
          app_nvs_sta_credentials_namespace).bind
            (fun entries => entries.lookup nvs_key_password) =
      some (password ++ List.replicate (MAX_PASSWORD_LENGTH - password.length) 0) ∧
    app_nvs_load_sta_creds (some wifi_config_zero)
        ((d.wifi_connect_json ssid password).run
          [.wifi_app_task false, .driver_event .IP_EVENT_STA_GOT_IP, .wifi_app_task false,
           .http_server_monitor, .http_server_monitor]).nvs =
      (true, some (sta_credentials ssid password)) := by
  obtain ⟨⟨coord, q, mon, mq, started, log, tlog⟩, config, nvs, undef⟩ := d
  simp only at hu hc hstarted hq hm
  subst hu hc hstarted hq hm
  have hfill := http_server_wifi_connect_json_handler_fills ssid password hse hpe hsz hpz hs hp
  obtain ⟨hl1, hl2⟩ := sta_credentials_lengths ssid password hs hp
  obtain ⟨_, hk1, hk2⟩ := app_nvs_save_sta_creds_stores (sta_credentials ssid password) nvs
  rw [List.take_of_length_le (le_of_eq hl1)] at hk1
  rw [List.take_of_length_le (le_of_eq hl2)] at hk2
  have hreq : Device.wifi_connect_json
        { sys := ⟨startup.coord, [], mon, [], true, log, tlog⟩, wifi_config := config,
          nvs := nvs, undefined := false } ssid password =
      { sys := ⟨startup.coord, [WIFI_APP_MSG_CONNECTING_FROM_HTTP_SERVER], mon, [], true,
          log ++ [.wifi_app_send_message WIFI_APP_MSG_CONNECTING_FROM_HTTP_SERVER], tlog⟩
        wifi_config := sta_credentials ssid password
        nvs := nvs
        undefined := false } := by
    simp [Device.wifi_connect_json, hfill, System.step, System.deliver, System.apply_effect]
  have hstep : Device.step (Device.wifi_connect_json
        { sys := ⟨startup.coord, [], mon, [], true, log, tlog⟩, wifi_config := config,
          nvs := nvs, undefined := false } ssid password) (.wifi_app_task false) =
      { sys := ⟨⟨0, ⟨false, true, false⟩⟩, [], mon, [HTTP_MSG_WIFI_CONNECT_INIT], true,
          log ++ [.wifi_app_send_message WIFI_APP_MSG_CONNECTING_FROM_HTTP_SERVER,
            .enable_light_color .color_BLUE, .esp_wifi_set_config, .esp_wifi_connect,
            .store_retry_number 0,
            .http_server_monitor_send_message HTTP_MSG_WIFI_CONNECT_INIT], tlog⟩
        wifi_config := sta_credentials ssid password
        nvs := nvs
        undefined := false } := by
    rw [hreq]
    simp [Device.step, System.step, System.deliver,
      System.apply_effect, wifi_app_task_step, wifi_app_connect_sta, startup,
      Device.apply_effect,
      WIFI_APP_MSG_CONNECTING_FROM_HTTP_SERVER, WIFI_APP_MSG_STA_LOAD_SAVED_CREDENTIALS,
      WIFI_APP_MSG_START_HTTP_SERVER]
  have hrun : Device.run (Device.wifi_connect_json
        { sys := ⟨startup.coord, [], mon, [], true, log, tlog⟩, wifi_config := config,
          nvs := nvs, undefined := false } ssid password)
        [.wifi_app_task false, .driver_event .IP_EVENT_STA_GOT_IP, .wifi_app_task false,
         .http_server_monitor, .http_server_monitor] =
      { sys := ⟨⟨0, ⟨false, false, false⟩⟩, [],
          { mon with g_wifi_connect_status := HTTP_WIFI_STATUS_CONNECT_SUCCESS }, [], true,
          log ++ [.wifi_app_send_message WIFI_APP_MSG_CONNECTING_FROM_HTTP_SERVER,
            .enable_light_color .color_BLUE, .esp_wifi_set_config, .esp_wifi_connect,
            .store_retry_number 0,
            .http_server_monitor_send_message HTTP_MSG_WIFI_CONNECT_INIT,
            .wifi_app_send_message WIFI_APP_MSG_STA_CONNECTED_GOT_IP,
            .enable_light_color .color_WARM_WHITE,
            .http_server_monitor_send_message HTTP_MSG_WIFI_CONNECT_SUCCESS,
            .app_nvs_save_sta_creds], tlog⟩
        wifi_config := sta_credentials ssid password
        nvs := (app_nvs_save_sta_creds (some (sta_credentials ssid password)) nvs).2
        undefined := false } := by
    simp only [Device.run, List.foldl_cons, List.foldl_nil]
    rw [hstep]
    simp [Device.step, System.step, System.deliver,
      System.apply_effect, wifi_app_task_step, wifi_wifi_app_event_group,
      http_server_monitor_step, Device.apply_effect,
      WIFI_APP_MSG_CONNECTING_FROM_HTTP_SERVER, WIFI_APP_MSG_STA_LOAD_SAVED_CREDENTIALS,
      WIFI_APP_MSG_START_HTTP_SERVER, WIFI_APP_MSG_STA_CONNECTED_GOT_IP,
      HTTP_MSG_WIFI_CONNECT_INIT, HTTP_MSG_WIFI_CONNECT_SUCCESS]
  rw [hstep, hrun, hreq]
  refine ⟨rfl, rfl, rfl, rfl, rfl, rfl, rfl, ?_, rfl, hk1, hk2, ?_⟩
  · simp only [status_light_append]
    rfl
  · have := app_nvs_load_sta_creds_of_stored wifi_config_zero _ _ _ hk1 hk2 hl1 hl2
    rw [this]
    have hhead : (sta_credentials ssid password).ssid.headD 0 ≠ 0 := by
      cases ssid with
      | nil => exact absurd rfl hse
      | cons a rest =>
        simpa [sta_credentials] using hsz a (List.mem_cons_self _ _)
    rw [decide_eq_true hhead]

/-- Claim C18, amended, for the device that started with an empty store, the
server running, and the SSID `home` with the password `secret123` (the
scenario of the spec). -/
theorem C18_client_credentials_saved_witness :
    ssid_home ≠ [] ∧ password_secret123 ≠ [] ∧
    (∀ b ∈ ssid_home, b ≠ 0) ∧ (∀ b ∈ password_secret123, b ≠ 0) ∧
    ssid_home.length ≤ MAX_SSID_LENGTH ∧ password_secret123.length ≤ MAX_PASSWORD_LENGTH ∧
    ((((Device.startup []).run [.wifi_app_task false, .wifi_app_task false]).wifi_connect_json
        ssid_home password_secret123).run
        [.wifi_app_task false, .driver_event .IP_EVENT_STA_GOT_IP, .wifi_app_task false,
         .http_server_monitor, .http_server_monitor]).sys.monitor.g_wifi_connect_status =
      HTTP_WIFI_STATUS_CONNECT_SUCCESS ∧
    app_nvs_load_sta_creds (some wifi_config_zero)
        ((((Device.startup []).run [.wifi_app_task false, .wifi_app_task false]).wifi_connect_json
          ssid_home password_secret123).run
          [.wifi_app_task false, .driver_event .IP_EVENT_STA_GOT_IP, .wifi_app_task false,
           .http_server_monitor, .http_server_monitor]).nvs =
      (true, some (sta_credentials ssid_home password_secret123)) :=
  have h := C18_client_credentials_saved
    ((Device.startup []).run [.wifi_app_task false, .wifi_app_task false])
    ssid_home password_secret123 none (by decide) (by decide) (by decide) (by decide)
    (by decide) (by decide) (by decide) (by decide) (by decide) (by decide) (by decide)
  ⟨by decide, by decide, by decide, by decide, by decide, by decide, h.2.2.2.2.2.1,
    h.2.2.2.2.2.2.2.2.2.2.2⟩

/-- Claim C18 as stated fails for a request whose password (or SSID) is empty,
and for an SSID holding a NUL byte. With the server running and the queues empty, a
request with the SSID `home` and an empty password, or with an empty SSID,
makes the handler call `strlen(NULL)`: no request is queued, and in the model,
which stops there, the connection status stays `HTTP_WIFI_STATUS_NONE` and the
store stays empty. For the SSID `h\0i` the handler copies `strlen + 1` = 2
bytes: the buffer and, after the got-IP event, the store hold `h`, not the
SSID sent. -/
theorem C18_empty_password_is_not_submitted :
    ([] : List Byte).length ≤ MAX_PASSWORD_LENGTH ∧
    get_value_from_header [] = none ∧
    http_server_wifi_connect_json_handler ssid_home [] = none ∧
    http_server_wifi_connect_json_handler [] password_secret123 = none ∧
    ((Device.startup []).run [.wifi_app_task false, .wifi_app_task false]).sys.coord =
      startup.coord ∧
    ((Device.startup []).run [.wifi_app_task false, .wifi_app_task false]).sys.http_server_started =
      true ∧
    ((Device.startup []).run [.wifi_app_task false, .wifi_app_task false]).sys.wifi_app_queue =
      [] ∧
    ((Device.startup []).run [.wifi_app_task false, .wifi_app_task false]).undefined = false ∧
    (((Device.startup []).run [.wifi_app_task false, .wifi_app_task false]).wifi_connect_json
        ssid_home []).undefined = true ∧
    (((Device.startup []).run [.wifi_app_task false, .wifi_app_task false]).wifi_connect_json
        ssid_home []).sys.wifi_app_queue = [] ∧
    ((((Device.startup []).run [.wifi_app_task false, .wifi_app_task false]).wifi_connect_json
        ssid_home []).run
        [.wifi_app_task false, .driver_event .IP_EVENT_STA_GOT_IP, .wifi_app_task false,
         .http_server_monitor, .http_server_monitor]).sys.monitor.g_wifi_connect_status =
      HTTP_WIFI_STATUS_NONE ∧
    HTTP_WIFI_STATUS_NONE ≠ HTTP_WIFI_STATUS_CONNECT_SUCCESS ∧
    ((((Device.startup []).run [.wifi_app_task false, .wifi_app_task false]).wifi_connect_json
        ssid_home []).run
        [.wifi_app_task false, .driver_event .IP_EVENT_STA_GOT_IP, .wifi_app_task false,
         .http_server_monitor, .http_server_monitor]).nvs = [] ∧
    ssid_h_nul_i.length ≤ MAX_SSID_LENGTH ∧
    http_server_wifi_connect_json_handler ssid_h_nul_i password_secret123 =
      some (sta_credentials [104] password_secret123) ∧
    (((((Device.startup []).run [.wifi_app_task false, .wifi_app_task false]).wifi_connect_json
        ssid_h_nul_i password_secret123).run
        [.wifi_app_task false, .driver_event .IP_EVENT_STA_GOT_IP, .wifi_app_task false,
         .http_server_monitor, .http_server_monitor]).nvs.lookup
          app_nvs_sta_credentials_namespace).bind (fun entries => entries.lookup nvs_key_ssid) =
      some ([104] ++ List.replicate 31 0) ∧
    [104] ++ List.replicate 31 0 ≠
      ssid_h_nul_i ++ List.replicate (MAX_SSID_LENGTH - ssid_h_nul_i.length) 0 := by
  decide

/-! ## The coordinator: no saved credentials -/

/-- Claim C19: in every state, handling `WIFI_APP_MSG_STA_LOAD_SAVED_CREDENTIALS`
when `app_nvs_load_sta_creds()` returns false changes nothing in the state (no
flag is set) and makes two calls, the load and
`wifi_app_send_message(WIFI_APP_MSG_START_HTTP_SERVER)`: no connect. When the
load returns true the handler also sets BIT0 and connects, and it sends the same
one message. Handling `WIFI_APP_MSG_START_HTTP_SERVER` calls
`http_server_start()` and sets the light to red. A store without the namespace
of the credentials makes the load return false, and from startup with such a
store the two messages leave the server started, the queue empty, no flag set
and the light red. -/
theorem C19_load_fails_then_local_server (s : Coordinator) (nvs_load : Bool)
    (wifi_config : Option wifi_config_t) :
    wifi_app_task_step false WIFI_APP_MSG_STA_LOAD_SAVED_CREDENTIALS s =
      (s, [.app_nvs_load_sta_creds,
           .wifi_app_send_message WIFI_APP_MSG_START_HTTP_SERVER]) ∧
    wifi_app_task_step true WIFI_APP_MSG_STA_LOAD_SAVED_CREDENTIALS s =
      ({ s with bits := { s.bits with LOAD_SAVED_CREDENTIALS_BIT := true } },
        [.app_nvs_load_sta_creds, .esp_wifi_set_config, .esp_wifi_connect,
         .wifi_app_send_message WIFI_APP_MSG_START_HTTP_SERVER]) ∧
    wifi_app_task_step nvs_load WIFI_APP_MSG_START_HTTP_SERVER s =
      (s, [.http_server_start, .enable_light_color .color_RED]) ∧
    app_nvs_load_sta_creds wifi_config [] = (false, wifi_config) ∧
    ((Device.startup []).run [.wifi_app_task nvs_load, .wifi_app_task nvs_load]).sys =
      { startup with
        wifi_app_queue := []
        http_server_started := true
        log := [.app_nvs_load_sta_creds,
                .wifi_app_send_message WIFI_APP_MSG_START_HTTP_SERVER,
                .http_server_start, .enable_light_color .color_RED] } ∧
    status_light none
      ((Device.startup []).run [.wifi_app_task nvs_load, .wifi_app_task nvs_load]).sys.log =
      some .color_RED := by
  have hdev : ((Device.startup []).run [.wifi_app_task nvs_load, .wifi_app_task nvs_load]).sys =
      { startup with
        wifi_app_queue := []
        http_server_started := true
        log := [.app_nvs_load_sta_creds,
                .wifi_app_send_message WIFI_APP_MSG_START_HTTP_SERVER,
                .http_server_start, .enable_light_color .color_RED] } := by
    cases nvs_load <;> rfl
  refine ⟨rfl, rfl, rfl, rfl, hdev, ?_⟩
  rw [hdev]
  rfl

/-! ## The credential store: clearing -/

/-- Claim C20 fails on the code: `app_nvs_clear_sta_creds` opens the namespace
with `NVS_READONLY`, so `nvs_erase_all` refuses with `ESP_ERR_NVS_READ_ONLY`
(and the open itself fails with `ESP_ERR_NVS_NOT_FOUND` when the namespace does
not exist). Whatever the store holds, the function does not return `ESP_OK` and
leaves the store as it is. After the credentials `home` / `secret123` have been
saved, the first clear returns `ESP_ERR_NVS_READ_ONLY`, and the credentials are
still loaded afterwards. -/
theorem C20_clear_never_erases (store : NvsStore) :
    (app_nvs_clear_sta_creds store).1 ≠ ESP_OK ∧
    (app_nvs_clear_sta_creds store).2 = store ∧
    (app_nvs_clear_sta_creds
        (app_nvs_save_sta_creds (some (sta_credentials ssid_home password_secret123))
          []).2).1 = ESP_ERR_NVS_READ_ONLY ∧
    app_nvs_load_sta_creds (some wifi_config_zero)
        (app_nvs_clear_sta_creds
          (app_nvs_save_sta_creds (some (sta_credentials ssid_home password_secret123))
            []).2).2 =
      (true, some (sta_credentials ssid_home password_secret123)) := by
  refine ⟨?_, ?_, by decide, by decide⟩
  · unfold app_nvs_clear_sta_creds nvs_open
    cases store.lookup app_nvs_sta_credentials_namespace <;>
      simp [nvs_erase_all, ESP_ERR_NVS_NOT_FOUND, ESP_ERR_NVS_READ_ONLY, ESP_OK]
  · unfold app_nvs_clear_sta_creds nvs_open
    cases store.lookup app_nvs_sta_credentials_namespace <;>
      simp [nvs_erase_all, ESP_ERR_NVS_NOT_FOUND, ESP_ERR_NVS_READ_ONLY, ESP_OK]

/-! ## The update receiver: the handle given to finalize -/

/-- Claim C21 fails on the code. If the very first read returns
`HTTPD_SOCK_ERR_TIMEOUT`, then for every request with an update partition the
`continue` leaves the loop and the handler calls `esp_ota_end(ota_handle)` as
its second call, `esp_ota_begin` never having been called and `ota_handle`
never assigned; with a sink that accepts that call the handler goes on to set
the boot target and to report success. For the sample request whose first read
returns zero bytes the handler searches the terminator in the uninitialised
buffer and leaves defined behaviour before any sink call. -/
theorem C21_finalize_without_begin (content_len : Nat) (script : List RecvResult)
    (stack : List Byte) (sink : OtaSink) :
    (http_server_OTA_update_handler
        { content_len := content_len, script := RecvResult.timeout :: script,
          update_partition := true, stack := stack, sink := sink }).calls =
      .httpd_req_recv (min content_len buffer_size) HTTPD_SOCK_ERR_TIMEOUT ::
        .esp_ota_end false sink.esp_ota_end ::
          (if sink.esp_ota_end = ESP_OK then
            [.esp_ota_set_boot_partition sink.esp_ota_set_boot_partition,
             .http_server_monitor_send_message
               (if sink.esp_ota_set_boot_partition = ESP_OK then HTTP_MSG_OTA_UPDATE_SUCCESSFUL
                else HTTP_MSG_OTA_UPDATE_FAILED)]
          else [.http_server_monitor_send_message HTTP_MSG_OTA_UPDATE_FAILED]) ∧
    (∀ ret, OtaCall.esp_ota_begin ret ∉
      (http_server_OTA_update_handler
        { content_len := content_len, script := RecvResult.timeout :: script,
          update_partition := true, stack := stack, sink := sink }).calls) ∧
    http_server_OTA_update_handler
        (sample_request [.timeout, .data [104, 13, 10, 13, 10, 65, 66, 67, 68]] sink_ok) =
      ⟨.returned ESP_OK,
        [.httpd_req_recv 9 HTTPD_SOCK_ERR_TIMEOUT, .esp_ota_end false ESP_OK,
         .esp_ota_set_boot_partition ESP_OK,
         .http_server_monitor_send_message HTTP_MSG_OTA_UPDATE_SUCCESSFUL]⟩ ∧
    http_server_OTA_update_handler
        (sample_request [.data [], .data [104, 13, 10, 13, 10, 65, 66, 67, 68]] sink_ok) =
      ⟨.undefined, [.httpd_req_recv 9 0]⟩ := by
  have hloop : http_server_OTA_update_handler
        { content_len := content_len, script := RecvResult.timeout :: script,
          update_partition := true, stack := stack, sink := sink } =
      ota_after_loop sink
        { ota_buff := stack, content_received := 0, is_request_body_started := false,
          writes := 0,
          calls := [.httpd_req_recv (min content_len buffer_size) HTTPD_SOCK_ERR_TIMEOUT] } := by
    simp [http_server_OTA_update_handler, ota_receive_loop, ota_loop_body, RecvResult.timeout,
      RecvResult.receive_len, RecvResult.store, HTTPD_SOCK_ERR_TIMEOUT, ota_loop_condition]
  refine ⟨?_, ?_, by decide, by decide⟩
  · rw [hloop, ota_after_loop_calls]
    rfl
  · intro ret
    rw [hloop, ota_after_loop_calls]
    split_ifs <;> simp

/-! ## The coordinator: the range of the retry counter -/

theorem System.deliver_coord (effs : List Effect) (sys : System) :
    (System.deliver effs sys).coord = sys.coord := by
  have h : ∀ (effs : List Effect) (sys : System),
      (effs.foldl System.apply_effect sys).coord = sys.coord := by
    intro effs
    induction effs with
    | nil => intro sys; rfl
    | cons e effs ih =>
      intro sys
      rw [List.foldl_cons, ih]
      cases e <;> rfl
  simp only [System.deliver]
  exact h effs sys

theorem wifi_app_task_step_retry (nvs_load : Bool) (messageID : Nat) (s : Coordinator)
    (h : 0 ≤ s.g_retry_number ∧ s.g_retry_number ≤ MAX_CONNECTIONS_RETRIES) :
    0 ≤ (wifi_app_task_step nvs_load messageID s).1.g_retry_number ∧
      (wifi_app_task_step nvs_load messageID s).1.g_retry_number ≤ MAX_CONNECTIONS_RETRIES := by
  unfold wifi_app_task_step
  simp only []
  split_ifs <;> first | exact h | (simp [MAX_CONNECTIONS_RETRIES])

theorem wifi_wifi_app_event_group_retry (ev : DriverEvent) (g : Int)
    (h : 0 ≤ g ∧ g ≤ MAX_CONNECTIONS_RETRIES) :
    0 ≤ (wifi_wifi_app_event_group ev g).1 ∧
      (wifi_wifi_app_event_group ev g).1 ≤ MAX_CONNECTIONS_RETRIES := by
  unfold wifi_wifi_app_event_group
  cases ev <;> simp only [] <;> try exact h
  split_ifs with hmax
  · exact h
  · simp only [MAX_CONNECTIONS_RETRIES] at hmax h ⊢
    omega

theorem System.step_retry_in_range (sys : System) (i : Input) (h : retry_in_range sys) :
    retry_in_range (sys.step i) := by
  unfold retry_in_range at h ⊢
  cases i with
  | driver_event ev =>
    simp only [System.step, System.deliver_coord]
    exact wifi_wifi_app_event_group_retry ev _ h
  | wifi_connect_json =>
    simp only [System.step]
    split_ifs
    · rw [System.deliver_coord]; exact h
    · exact h
  | wifi_disconnect_json =>
    simp only [System.step]
    split_ifs
    · rw [System.deliver_coord]; exact h
    · exact h
  | wifi_app_task nvs_load =>
    simp only [System.step]
    split
    · exact h
    · simp only [System.deliver_coord]
      exact wifi_app_task_step_retry nvs_load _ _ h
  | http_server_monitor =>
    simp only [System.step]
    split
    · exact h
    · exact h

theorem System.run_retry_in_range (inputs : List Input) (sys : System)
    (h : retry_in_range sys) : retry_in_range (sys.run inputs) := by
  induction inputs generalizing sys with
  | nil => exact h
  | cons i inputs ih =>
    simp only [System.run, List.foldl_cons]
    exact ih _ (System.step_retry_in_range sys i h)

theorem wifi_app_task_step_stores (nvs_load : Bool) (messageID : Nat) (s : Coordinator) :
    (wifi_app_task_step nvs_load messageID s).1.g_retry_number = s.g_retry_number ∨
    (wifi_app_task_step nvs_load messageID s).1.g_retry_number = 0 ∨
    (wifi_app_task_step nvs_load messageID s).1.g_retry_number = MAX_CONNECTIONS_RETRIES := by
  unfold wifi_app_task_step
  simp only []
  split_ifs <;> simp

theorem System.step_stores (sys : System) (i : Input) (h : ∀ ev, i ≠ .driver_event ev) :
    (sys.step i).coord.g_retry_number = sys.coord.g_retry_number ∨
    (sys.step i).coord.g_retry_number = 0 ∨
    (sys.step i).coord.g_retry_number = MAX_CONNECTIONS_RETRIES := by
  cases i with
  | driver_event ev => exact absurd rfl (h ev)
  | wifi_connect_json =>
    simp only [System.step]
    split_ifs
    · rw [System.deliver_coord]; exact Or.inl rfl
    · exact Or.inl rfl
  | wifi_disconnect_json =>
    simp only [System.step]
    split_ifs
    · rw [System.deliver_coord]; exact Or.inl rfl
    · exact Or.inl rfl
  | wifi_app_task nvs_load =>
    simp only [System.step]
    split
    · exact Or.inl rfl
    · simp only [System.deliver_coord]
      exact wifi_app_task_step_stores nvs_load _ _
  | http_server_monitor =>
    simp only [System.step]
    split
    · exact Or.inl rfl
    · exact Or.inl rfl

theorem System.step_driver_event_retry (sys : System) (ev : DriverEvent)
    (h : 0 ≤ sys.coord.g_retry_number ∧
      sys.coord.g_retry_number ≤ MAX_CONNECTIONS_RETRIES + 1) :
    0 ≤ (sys.step (.driver_event ev)).coord.g_retry_number ∧
      (sys.step (.driver_event ev)).coord.g_retry_number ≤ MAX_CONNECTIONS_RETRIES + 1 := by
  simp only [System.step, System.deliver_coord]
  unfold wifi_wifi_app_event_group
  cases ev <;> simp only [] <;> try exact h
  split_ifs with hmax
  · exact h
  · simp only [MAX_CONNECTIONS_RETRIES] at hmax h ⊢
    omega

theorem Interleaved.step_retry_bounds (s : Interleaved) (a : Action) (h : s.retry_bounds) :
    (s.step a).retry_bounds := by
  obtain ⟨sys, point⟩ := s
  cases a with
  | input i =>
    by_cases hd : ∃ ev, i = .driver_event ev
    · obtain ⟨ev, rfl⟩ := hd
      cases point with
      | outside =>
        exact System.step_driver_event_retry sys ev h
      | after_test => exact h
      | after_connect => exact h
      | after_load loaded => exact h
    · have hne : ∀ ev, i ≠ .driver_event ev := fun ev he => hd ⟨ev, he⟩
      have hst := System.step_stores sys i hne
      have hstep : Interleaved.step ⟨sys, point⟩ (.input i) = ⟨sys.step i, point⟩ := by
        cases i with
        | driver_event ev => exact absurd rfl (hne ev)
        | _ => rfl
      rw [hstep]
      unfold Interleaved.retry_bounds at h ⊢
      simp only [MAX_CONNECTIONS_RETRIES] at h hst ⊢
      cases point <;> simp only [] at h ⊢ <;> omega
  | callback_test reason =>
    cases point with
    | outside =>
      simp only [Interleaved.step]
      split_ifs with hmax
      · unfold Interleaved.retry_bounds at h ⊢
        simp only [System.deliver_coord]
        exact h
      · unfold Interleaved.retry_bounds at h ⊢
        simp only [MAX_CONNECTIONS_RETRIES] at h hmax ⊢
        omega
    | after_test => exact h
    | after_connect => exact h
    | after_load loaded => exact h
  | callback_advance =>
    cases point with
    | outside => exact h
    | after_test =>
      unfold Interleaved.retry_bounds at h ⊢
      simp only [Interleaved.step, System.deliver_coord]
      exact h
    | after_connect =>
      unfold Interleaved.retry_bounds at h ⊢
      simp only [Interleaved.step] at h ⊢
      simp only [MAX_CONNECTIONS_RETRIES] at h ⊢
      omega
    | after_load loaded =>
      unfold Interleaved.retry_bounds at h ⊢
      simp only [Interleaved.step, System.deliver_coord] at h ⊢
      simp only [MAX_CONNECTIONS_RETRIES] at h ⊢
      omega

theorem Interleaved.run_retry_bounds (actions : List Action) (s : Interleaved)
    (h : s.retry_bounds) : (s.run actions).retry_bounds := by
  induction actions generalizing s with
  | nil => exact h
  | cons a actions ih =>
    simp only [Interleaved.run, List.foldl_cons]
    exact ih _ (Interleaved.step_retry_bounds s a h)

theorem Interleaved.retry_bounds_le (s : Interleaved) (h : s.retry_bounds) :
    0 ≤ s.sys.coord.g_retry_number ∧
      s.sys.coord.g_retry_number ≤ MAX_CONNECTIONS_RETRIES + 1 := by
  obtain ⟨sys, point⟩ := s
  unfold Interleaved.retry_bounds at h
  simp only [MAX_CONNECTIONS_RETRIES] at h ⊢
  cases point <;> simp only [] at h <;> omega

theorem Interleaved.startup_retry_bounds : Interleaved.startup.retry_bounds := by
  simp only [Interleaved.retry_bounds, Interleaved.startup]
  exact ⟨by decide, by decide⟩

theorem Interleaved.run_inputs (inputs : List Input) (sys : System) :
    Interleaved.run ⟨sys, .outside⟩ (inputs.map Action.input) = ⟨sys.run inputs, .outside⟩ := by
  induction inputs generalizing sys with
  | nil => rfl
  | cons i inputs ih =>
    simp only [List.map_cons, Interleaved.run, List.foldl_cons, System.run]
    have hstep : Interleaved.step ⟨sys, .outside⟩ (.input i) = ⟨sys.step i, .outside⟩ := by
      cases i <;> rfl
    rw [hstep]
    exact ih _

theorem Interleaved.run_callback (sys : System) (reason : Nat) :
    Interleaved.run ⟨sys, .outside⟩
        [.callback_test reason, .callback_advance, .callback_advance, .callback_advance] =
      ⟨sys.step (sta_disconnected reason), .outside⟩ := by
  simp only [Interleaved.run, List.foldl_cons, List.foldl_nil, sta_disconnected, System.step,
    wifi_wifi_app_event_group, Interleaved.step]
  split_ifs with hmax
  · rfl
  · simp [System.deliver, System.apply_effect]

/-- Claim C22, amended: in every state reached from startup by any sequence of
steps (driver events, client requests, messages handled by `wifi_app_task` with
any outcome of the credential load, messages handled by the monitor), where
`wifi_app_task` and the HTTP handlers may also run between the statements of
the callback's station-disconnected case (after its test, after
`esp_wifi_connect()`, between the read and the store of `++g_retry_number`),
`0 <= g_retry_number <= MAX_CONNECTIONS_RETRIES + 1`. When every callback run is
one step, `0 <= g_retry_number <= MAX_CONNECTIONS_RETRIES`; such runs are runs
of the interleaved system, and a callback taken statement by statement with
nothing in between does what the one step does. -/
theorem C22_retry_counter_at_most_max_plus_one (actions : List Action) (inputs : List Input)
    (sys : System) (reason : Nat) :
    (0 ≤ (Interleaved.startup.run actions).sys.coord.g_retry_number ∧
      (Interleaved.startup.run actions).sys.coord.g_retry_number ≤
        MAX_CONNECTIONS_RETRIES + 1) ∧
    (0 ≤ (startup.run inputs).coord.g_retry_number ∧
      (startup.run inputs).coord.g_retry_number ≤ MAX_CONNECTIONS_RETRIES) ∧
    Interleaved.startup.run (inputs.map Action.input) = ⟨startup.run inputs, .outside⟩ ∧
    Interleaved.run ⟨sys, .outside⟩
        [.callback_test reason, .callback_advance, .callback_advance, .callback_advance] =
      ⟨sys.step (sta_disconnected reason), .outside⟩ :=
  ⟨Interleaved.retry_bounds_le _
      (Interleaved.run_retry_bounds actions Interleaved.startup
        Interleaved.startup_retry_bounds),
    System.run_retry_in_range inputs startup ⟨by decide, by decide⟩,
    Interleaved.run_inputs inputs startup,
    Interleaved.run_callback sys reason⟩

/-- Claim C22 as stated fails when `wifi_app_task` runs between the callback's
test and its increment. The server is started, a client posts a connect request and
`wifi_app_task` handles it (counter 0), one station disconnect is retried
(counter 1), and the client asks to disconnect. The callback for the next
station disconnect tests the counter (1 < 5); `wifi_app_task` then handles the
user's request and stores `MAX_CONNECTIONS_RETRIES`; the callback goes on,
calls `esp_wifi_connect()` and increments: the counter is
`MAX_CONNECTIONS_RETRIES + 1` = 6. -/
theorem C22_store_between_test_and_increment :
    (Interleaved.startup.run
      [.input (.wifi_app_task false), .input (.wifi_app_task false),
       .input .wifi_connect_json, .input (.wifi_app_task false),
       .input (sta_disconnected 201), .input .wifi_disconnect_json,
       .callback_test 201]) =
      ⟨(startup.run [.wifi_app_task false, .wifi_app_task false, .wifi_connect_json,
          .wifi_app_task false, sta_disconnected 201, .wifi_disconnect_json]), .after_test⟩ ∧
    (startup.run [.wifi_app_task false, .wifi_app_task false, .wifi_connect_json,
          .wifi_app_task false, sta_disconnected 201, .wifi_disconnect_json]).coord.g_retry_number
      = 1 ∧
    (Interleaved.startup.run
      [.input (.wifi_app_task false), .input (.wifi_app_task false),
       .input .wifi_connect_json, .input (.wifi_app_task false),
       .input (sta_disconnected 201), .input .wifi_disconnect_json,
       .callback_test 201, .input (.wifi_app_task false)]).sys.coord.g_retry_number =
      MAX_CONNECTIONS_RETRIES ∧
    (Interleaved.startup.run
      [.input (.wifi_app_task false), .input (.wifi_app_task false),
       .input .wifi_connect_json, .input (.wifi_app_task false),
       .input (sta_disconnected 201), .input .wifi_disconnect_json,
       .callback_test 201, .input (.wifi_app_task false),
       .callback_advance, .callback_advance, .callback_advance]).sys.coord.g_retry_number =
      MAX_CONNECTIONS_RETRIES + 1 ∧
    ¬ (MAX_CONNECTIONS_RETRIES + 1 ≤ MAX_CONNECTIONS_RETRIES) := by
  decide

/-! ## The coordinator: a client request while the saved credentials are tried -/

/-- Claim C23 fails on the code. In every state with BIT0 and BIT1 both set, the
handler of `WIFI_APP_MSG_STA_CONNECTED_GOT_IP` clears both bits and does not call
`app_nvs_save_sta_creds`: it tests BIT0, not BIT1. Such a state is reached from
startup: with `old` / `oldpass1` in the store the load succeeds and sets BIT0,
the server starts, a client posts `home` / `secret123`, `wifi_app_task` handles
the request (BIT0 and BIT1 set) and then the driver's got-IP message. No save
call is in the log, the store is what it was at boot, and a later load reads
`old` / `oldpass1`, not the submitted credentials. -/
theorem C23_client_credentials_not_saved (g : Int) (b2 nvs_load : Bool) :
    wifi_app_task_step nvs_load WIFI_APP_MSG_STA_CONNECTED_GOT_IP ⟨g, ⟨true, true, b2⟩⟩ =
      (⟨g, ⟨false, false, b2⟩⟩,
        [.enable_light_color .color_WARM_WHITE,
         .http_server_monitor_send_message HTTP_MSG_WIFI_CONNECT_SUCCESS]) ∧
    ((((Device.startup store_with_old_credentials).run
        [.wifi_app_task true, .wifi_app_task true]).wifi_connect_json
          ssid_home password_secret123).step (.wifi_app_task true)).sys.coord.bits =
      ⟨true, true, false⟩ ∧
    ((((Device.startup store_with_old_credentials).run
        [.wifi_app_task true, .wifi_app_task true]).wifi_connect_json
          ssid_home password_secret123).step (.wifi_app_task true)).wifi_config =
      sta_credentials ssid_home password_secret123 ∧
    Effect.app_nvs_save_sta_creds ∉
      ((((Device.startup store_with_old_credentials).run
        [.wifi_app_task true, .wifi_app_task true]).wifi_connect_json
          ssid_home password_secret123).run
        [.wifi_app_task true, .driver_event .IP_EVENT_STA_GOT_IP,
         .wifi_app_task true]).sys.log ∧
    ((((Device.startup store_with_old_credentials).run
        [.wifi_app_task true, .wifi_app_task true]).wifi_connect_json
          ssid_home password_secret123).run
        [.wifi_app_task true, .driver_event .IP_EVENT_STA_GOT_IP,
         .wifi_app_task true]).nvs = store_with_old_credentials ∧
    app_nvs_load_sta_creds (some wifi_config_zero)
        ((((Device.startup store_with_old_credentials).run
          [.wifi_app_task true, .wifi_app_task true]).wifi_connect_json
            ssid_home password_secret123).run
          [.wifi_app_task true, .driver_event .IP_EVENT_STA_GOT_IP,
           .wifi_app_task true]).nvs =
      (true, some (sta_credentials ssid_old password_old)) ∧
    sta_credentials ssid_old password_old ≠ sta_credentials ssid_home password_secret123 := by
  refine ⟨?_, by decide, by decide, by decide, by decide, by decide, by decide⟩
  cases b2 <;> rfl

end HomeLamp
